import Mathlib

/-!
# Verification of the ace_camp checkout engine

Shallow embedding of the order/checkout computation engine of the
`bracketsdeveloper/ace_camp` repository (server/routes.ts, server/storage.ts):
slab normalization, slab-aware unit-price resolution, campaign purchase-limit
enforcement, the three checkout paths (points-only, gateway co-pay, bulk-buy),
and the human-readable identifier generators.

Modelling conventions:
* JavaScript numbers produced by untrusted coercion (`Number(x)`) are modelled
  as `Option ℚ`: `some q` for a finite value, `none` for a non-finite result
  (`NaN`; JSON input cannot produce `±Infinity`).  `Number.isFinite x`
  becomes `x.isSome`, and a comparison against a non-finite value is `false`,
  as in JavaScript.
* Trusted numeric fields are `ℚ` (prices, rates, amounts) or `ℤ`
  (stock, points, quantities, counters); JavaScript subtraction of stock and
  points is unclamped, hence `ℤ` rather than `ℕ`.
* `Math.ceil` on a finite value is `mathCeil`, the exact rational ceiling.
* `Array.prototype.sort` with a comparator is, per the ECMAScript standard,
  an arbitrary stable sort consistent with the comparator; it is modelled by
  a stable insertion sort over the comparator's ordering.
* The persistence layer is a record `Store` holding, for the employee of the
  authenticated session, the rows each handler reads and writes; every
  storage call reads or updates this record.  Authentication, HTTP plumbing
  and the actual payment-gateway HTTP exchange stay outside the model; the
  gateway's verification *response* is a `GatewayResult` input.
-/

/-- A JavaScript number obtained from untrusted coercion (`Number (...)`):
`some q` when finite, `none` when `NaN` (non-finite). -/
abbrev JsNum := Option ℚ

/-- `Math.ceil` on a finite JavaScript number. -/
def mathCeil (q : ℚ) : ℤ := ⌈q⌉

/-- JavaScript `x || 1` on a numeric field (`0` and missing count as falsy;
the handlers apply it to quantities, where a stored `0`/`null` falls back
to `1`). -/
def orOne (q : ℤ) : ℤ := if q = 0 then 1 else q

/-- JavaScript `String(n).padStart (len, "0")`. -/
def padZero (s : String) (len : ℕ) : String :=
  if len ≤ s.length then s
  else String.mk (List.replicate (len - s.length) '0') ++ s

/-! ## Slab Normalizer (`normalizePriceSlabs`, routes.ts lines 57–115)

The handler receives an arbitrary JSON array and first coerces each record to
`{ minQty: Number(s?.minQty), maxQty: null-or-Number(rawMax), price: String(s?.price ?? "").trim() }`.
`RawSlab` is that coerced record: the coercion itself is the JavaScript
boundary, so the embedding starts from the coerced list.  The field
`priceNum` carries the result of the later `Number (s.price)` parse of the
trimmed price string, so the string parse does not have to be re-modelled. -/

structure RawSlab where
  /-- `Number(s?.minQty)`. -/
  minQty : JsNum
  /-- `none` = `null`/`undefined`/`""` (open-ended); `some v` = `Number (rawMax)`. -/
  maxQty : Option JsNum
  /-- the trimmed price string. -/
  price : String
  /-- `Number (price)` for the trimmed string above. -/
  priceNum : JsNum
  deriving DecidableEq

/-- A validated slab as returned by the normalizer: `minQty` finite and
positive, `maxQty` either a finite bound or `⊤` (open-ended `null`). -/
structure Slab where
  minQty : ℚ
  maxQty : WithTop ℚ
  price : String
  deriving DecidableEq

/-- The retention filter of the `.map(...).filter(...)` stage:
`Number.isFinite (s.minQty) && s.minQty > 0 && s.price !== ""`. -/
def keepRaw (s : RawSlab) : Bool :=
  (match s.minQty with
   | some m => decide (0 < m)
   | none => false) && !(s.price == "")

/-- The per-slab validation of the price/range loop (routes.ts 75–84),
refining the record on success.  A retained record's `minQty` is a finite
rational (the filter guarantees `isSome`), extracted with `getD 0`. -/
def validateSlab (s : RawSlab) : Except String Slab :=
  match s.priceNum with
  | none => .error "Slab price must be a number >= 0"
  | some p =>
    if p < 0 then .error "Slab price must be a number >= 0"
    else
      match s.maxQty with
      | none => .ok ⟨s.minQty.getD 0, ⊤, s.price⟩
      | some none => .error "Max Qty must be empty (open-ended) or >= Min Qty"
      | some (some mx) =>
        if mx < s.minQty.getD 0 then
          .error "Max Qty must be empty (open-ended) or >= Min Qty"
        else .ok ⟨s.minQty.getD 0, (mx : WithTop ℚ), s.price⟩

/-- The validation loop over all retained slabs, failing on the first
violation exactly as the `for … throw` loop does. -/
def validateAll : List RawSlab → Except String (List Slab)
  | [] => .ok []
  | s :: rest =>
    match validateSlab s with
    | .error e => .error e
    | .ok t =>
      match validateAll rest with
      | .error e => .error e
      | .ok ts => .ok (t :: ts)

/-- The sort comparator `a.minQty - b.minQty || (a.maxQty ?? Infinity) - (b.maxQty ?? Infinity)`
read as a total order: ascending by `minQty`, ties broken by
`maxQty`-or-infinity. -/
def slabLE (a b : Slab) : Prop :=
  a.minQty < b.minQty ∨ (a.minQty = b.minQty ∧ a.maxQty ≤ b.maxQty)

instance : DecidableRel slabLE := fun a b => by
  unfold slabLE; infer_instance

/-- Stable insertion used to model `Array.prototype.sort` with the slab
comparator (any stable comparator-consistent sort is a faithful model). -/
def insertSlab (a : Slab) : List Slab → List Slab
  | [] => [a]
  | b :: l => if slabLE a b then a :: b :: l else b :: insertSlab a l

/-- Sorting stage of the normalizer (routes.ts 92–94). -/
def sortSlabs (l : List Slab) : List Slab := l.foldr insertSlab []

/-- The overlap test of routes.ts 107: closed intervals
`[minQty, maxQty-or-infinity]` intersect. -/
def slabsOverlap (a b : Slab) : Prop :=
  (a.minQty : WithTop ℚ) ≤ b.maxQty ∧ (b.minQty : WithTop ℚ) ≤ a.maxQty

instance : ∀ a b, Decidable (slabsOverlap a b) := fun a b => by
  unfold slabsOverlap; infer_instance

/-- The pairwise overlap loop (routes.ts 99–112): for each index `i`, test
against every later index `j` and throw on the first overlapping pair. -/
def checkOverlaps : List Slab → Except String Unit
  | [] => .ok ()
  | a :: rest =>
    if rest.any (fun b => decide (slabsOverlap a b)) then
      .error "Slab ranges overlap. Please make ranges non-overlapping."
    else checkOverlaps rest

/-- `normalizePriceSlabs` (routes.ts 57–115): filter, validate prices and
ranges, reject a second open-ended slab, sort, reject overlaps, return the
cleaned sorted list.  (The open-ended count of the source is taken on
`cleaned`; validation is 1-to-1 and maps `maxQty = null` to `⊤`, so counting
on the refined list is the same count.) -/
def normalizePriceSlabs (input : List RawSlab) : Except String (List Slab) :=
  let cleaned := input.filter keepRaw
  match validateAll cleaned with
  | .error e => .error e
  | .ok vetted =>
    if 1 < (vetted.filter (fun s => s.maxQty = ⊤)).length then
      .error "Only one open-ended slab (blank Max Qty) is allowed"
    else
      let sorted := sortSlabs vetted
      match checkOverlaps sorted with
      | .error e => .error e
      | .ok _ => .ok sorted

/-- The claim's overlap test read directly on retained (coerced, unvalidated)
records: `a.min <= b.maxOrInf && b.min <= a.maxOrInf` with `null` (and any
non-finite bound, which validation rejects anyway) as infinity. -/
def rawMaxInf (s : RawSlab) : WithTop ℚ :=
  match s.maxQty with
  | none => ⊤
  | some none => ⊤
  | some (some v) => (v : WithTop ℚ)

/-- Overlap of two retained raw slabs, per the claim's test. -/
def rawOverlap (a b : RawSlab) : Prop :=
  (a.minQty.getD 0 : WithTop ℚ) ≤ rawMaxInf b ∧
    (b.minQty.getD 0 : WithTop ℚ) ≤ rawMaxInf a

instance : ∀ a b, Decidable (rawOverlap a b) := fun a b => by
  unfold rawOverlap; infer_instance

/-! ## Unit Price Resolver (`getUnitPriceForQty`, routes.ts 117–137)

`product.priceSlabs` is stored JSON that the resolver re-coerces defensively
(`Number (s?.minQty)` etc.), so its slab shape keeps the `JsNum` fields. -/

structure ProductSlab where
  /-- `Number (s?.minQty)`. -/
  minQty : JsNum
  /-- `none` = `null`/`undefined` (treated as `+Infinity`); `some v` = `Number (s?.maxQty)`. -/
  maxQty : Option JsNum
  /-- `Number (s?.price)` for the slab's price string. -/
  price : JsNum
  deriving DecidableEq

structure Product where
  id : String
  name : String
  sku : String
  /-- base price `Number (product?.price ?? 0)`, modelled as its parsed value. -/
  price : ℚ
  /-- `product.stock || 0`; JavaScript arithmetic is unclamped, hence `ℤ`. -/
  stock : ℤ
  priceSlabs : List ProductSlab
  isActive : Bool
  bulkBuy : Bool
  colors : List String
  sizes : List String
  deriving DecidableEq

/-- The `find` predicate of the resolver:
`Number.isFinite (min) && qty >= min && qty <= max` with `max = +Infinity`
for a `null`/`undefined` bound and a comparison against `NaN` false. -/
def slabContains (s : ProductSlab) (qty : ℚ) : Bool :=
  match s.minQty with
  | none => false
  | some mn =>
    decide (mn ≤ qty) &&
      (match s.maxQty with
       | none => true
       | some none => false
       | some (some mx) => decide (qty ≤ mx))

/-- `getUnitPriceForQty` (routes.ts 117–137): base price when there are no
slabs; otherwise the first matching slab's price, provided it parses to a
finite number `>= 0`; base price otherwise. -/
def getUnitPriceForQty (product : Product) (qty : ℚ) : ℚ :=
  let base := product.price
  let slabs := product.priceSlabs
  if slabs.isEmpty then base
  else
    match slabs.find? (fun s => slabContains s qty) with
    | none => base
    | some m =>
      match m.price with
      | none => base
      | some sp => if sp < 0 then base else sp

/-- `maxQty`-or-infinity for a resolver slab (`null`/`undefined` and the
non-finite coercion results that valid data never contains both read as
`⊤`). -/
def psMaxInf (s : ProductSlab) : WithTop ℚ :=
  match s.maxQty with
  | none => ⊤
  | some none => ⊤
  | some (some v) => (v : WithTop ℚ)

/-- Interval overlap of two resolver slabs, per the data-model invariant's
test (`a.min <= b.maxOrInf && b.min <= a.maxOrInf`). -/
def psOverlap (a b : ProductSlab) : Prop :=
  (a.minQty.getD 0 : WithTop ℚ) ≤ psMaxInf b ∧
    (b.minQty.getD 0 : WithTop ℚ) ≤ psMaxInf a

/-! ## Data model of the checkout engine -/

structure Employee where
  id : String
  /-- `employee.points ?? 0`, modelled as its integer value. -/
  points : ℤ
  deriving DecidableEq

structure Campaign where
  id : String
  name : String
  isActive : Bool
  /-- per-user cap; `none` = unlimited. -/
  maxProductsPerUser : Option ℤ
  deriving DecidableEq

structure CartItem where
  id : String
  employeeId : String
  productId : String
  quantity : ℤ
  selectedColor : Option String
  selectedSize : Option String
  campaignId : Option String
  deriving DecidableEq

structure OrderMeta where
  usedPoints : ℤ
  unitPrice : ℚ
  copayInr : Option ℤ
  paymentId : Option String
  phonepeOrderId : Option String
  deliveryMethod : String
  deliveryAddress : Option String
  deriving DecidableEq

structure Order where
  employeeId : String
  productId : String
  selectedColor : Option String
  selectedSize : Option String
  quantity : ℤ
  campaignId : Option String
  metadata : Option OrderMeta
  deriving DecidableEq

/-- A frozen bulk-buy line-item snapshot.  The cart-variant snapshot omits
`selectedSize` (routes.ts 1952–1960), which the model records as `none`. -/
structure SnapItem where
  productId : String
  name : String
  sku : String
  selectedColor : Option String
  selectedSize : Option String
  quantity : ℤ
  unitPrice : ℚ
  lineTotal : ℚ
  deriving DecidableEq

structure BulkBuyRequest where
  employeeId : String
  status : String
  deliveryMethod : String
  deliveryAddress : Option String
  requesterNote : Option String
  items : List SnapItem
  /-- `String(totalAmount.toFixed(2))`, modelled as the rounded value. -/
  totalAmount : ℚ
  deriving DecidableEq

structure Branding where
  /-- `parseFloat(branding?.inrPerPoint ?? "1")`; the spec's conversion rate
  is a positive decimal, and theorems that use the rate assume `0 < inrPerPoint`. -/
  inrPerPoint : ℚ
  /-- `branding?.maxSelectionsPerUser ?? 1`; `-1` = unlimited. -/
  maxSelectionsPerUser : ℤ
  deriving DecidableEq

/-- The persistence rows a checkout invocation touches, scoped to the
authenticated session's employee: `orders`, `cart` and `bulkBuyCart` are that
employee's rows (`getOrdersByEmployeeId`, `getCartItems`,
`getBulkBuyCartItems`). -/
structure Store where
  products : List Product
  campaigns : List Campaign
  /-- campaign-membership rows `(campaignId, productId)`. -/
  campaignProducts : List (String × String)
  employee : Employee
  orders : List Order
  cart : List CartItem
  bulkBuyCart : List CartItem
  bulkBuyRequests : List BulkBuyRequest
  branding : Branding
  deriving DecidableEq

/-- `storage.getProduct`. -/
def getProduct (s : Store) (pid : String) : Option Product :=
  s.products.find? (fun p => p.id == pid)

/-- `storage.getCampaign`. -/
def getCampaign (s : Store) (cid : String) : Option Campaign :=
  s.campaigns.find? (fun c => c.id == cid)

/-- `storage.updateProduct(pid, { stock })`. -/
def updateProductStock (s : Store) (pid : String) (newStock : ℤ) : Store :=
  { s with
    products :=
      s.products.map (fun p => if p.id == pid then { p with stock := newStock } else p) }

/-- `storage.getProductCampaigns(productId)`: inner join of membership rows
with the campaigns table. -/
def getProductCampaigns (s : Store) (pid : String) : List Campaign :=
  (s.campaignProducts.filter (fun cp => cp.2 == pid)).filterMap
    (fun cp => getCampaign s cp.1)

/-- `storage.getCampaignProducts(campaignId)` reduced to the product-id set
the limit check uses (inner join keeps only existing products). -/
def getCampaignProductIds (s : Store) (cid : String) : List String :=
  (s.campaignProducts.filter (fun cp => cp.1 == cid)).filterMap
    (fun cp => (getProduct s cp.2).map (fun p => p.id))

/-! ## Campaign Limit Evaluator and cart handlers
(`POST /api/cart` routes.ts 576–669, `PUT /api/cart/:id` routes.ts 671–728) -/

inductive CartErr where
  | productNotFound
  | cartItemNotFound
  | invalidQuantity
  | insufficientStock
  /-- `Campaign limit reached. You can only select ${limit} products for "${name}".` -/
  | campaignLimit (name : String) (limit : ℤ)
  deriving DecidableEq

/-- Usage by explicit `campaignId` over the employee's historical orders plus
current cart (routes.ts 617–622): sum of `quantity || 1` over rows whose
`campaignId` equals the campaign's id. -/
def campaignUsageExplicit (s : Store) (cid : String) : ℤ :=
  (s.orders.foldl
    (fun acc o => if o.campaignId = some cid then acc + orOne o.quantity else acc) 0) +
  (s.cart.foldl
    (fun acc c => if c.campaignId = some cid then acc + orOne c.quantity else acc) 0)

/-- Usage by product membership over orders plus cart excluding the updated
item (routes.ts 701–711): sum of `quantity || 1` over rows whose `productId`
belongs to the campaign's product set. -/
def campaignUsageByProducts (s : Store) (pids : List String) (excludeItemId : String) : ℤ :=
  (s.orders.foldl
    (fun acc o => if o.productId ∈ pids then acc + orOne o.quantity else acc) 0) +
  (s.cart.foldl
    (fun acc c =>
      if c.id ≠ excludeItemId ∧ c.productId ∈ pids then acc + orOne c.quantity else acc) 0)

/-- The campaign-limit gate of `POST /api/cart` (routes.ts 602–637): a check
runs only when the request carries an explicit `campaignId` naming an active
campaign with a non-null cap. -/
def addCartCampaignCheck (s : Store) (campaignId : Option String) (requestedQty : ℤ) :
    Except CartErr Unit :=
  match campaignId with
  | none => .ok ()
  | some cid =>
    match getCampaign s cid with
    | none => .ok ()
    | some campaign =>
      match campaign.maxProductsPerUser with
      | none => .ok ()
      | some limit =>
        if campaign.isActive then
          if limit < campaignUsageExplicit s campaign.id + requestedQty then
            .error (.campaignLimit campaign.name limit)
          else .ok ()
        else .ok ()

/-- `POST /api/cart` after authentication (routes.ts 576–669): product and
stock checks, the campaign gate, then merge-by-(product, color, size) or
create.  `freshId` stands for the id the database would mint for a new row. -/
def addToCart (s : Store) (productId : String) (requestedQty : ℤ)
    (selectedColor selectedSize : Option String) (campaignId : Option String)
    (freshId : String) : Except CartErr (Store × CartItem) :=
  match getProduct s productId with
  | none => .error .productNotFound
  | some product =>
    if product.stock < requestedQty then .error .insufficientStock
    else
      match addCartCampaignCheck s campaignId requestedQty with
      | .error e => .error e
      | .ok _ =>
        match s.cart.find? (fun it =>
            it.productId == productId && it.selectedColor == selectedColor &&
              it.selectedSize == selectedSize) with
        | some existing =>
          let newQuantity := orOne existing.quantity + requestedQty
          if product.stock < newQuantity then .error .insufficientStock
          else
            let updated := { existing with quantity := newQuantity }
            .ok ({ s with
                    cart := s.cart.map (fun it => if it.id == existing.id then updated else it) },
                 updated)
        | none =>
          let item : CartItem :=
            { id := freshId, employeeId := s.employee.id, productId := productId,
              selectedColor := selectedColor, selectedSize := selectedSize,
              quantity := requestedQty, campaignId := campaignId }
          .ok ({ s with cart := s.cart ++ [item] }, item)

/-- The per-campaign loop of `PUT /api/cart/:id` (routes.ts 696–718): for each
active capped campaign linked to the product, usage is counted by product
membership and the first violation rejects. -/
def updateCartCampaignLoop (s : Store) (itemId : String) (quantity : ℤ) :
    List Campaign → Except CartErr Unit
  | [] => .ok ()
  | c :: rest =>
    let pids := getCampaignProductIds s c.id
    let usage := campaignUsageByProducts s pids itemId
    if c.maxProductsPerUser.getD 0 < usage + quantity then
      .error (.campaignLimit c.name (c.maxProductsPerUser.getD 0))
    else updateCartCampaignLoop s itemId quantity rest

/-- `PUT /api/cart/:id` (routes.ts 671–728): quantity validation, item and
product lookup, stock check, then the product-membership campaign loop over
`getProductCampaigns` filtered to active campaigns with a cap.  (The source
skips the whole campaign check if the item's employee record is missing; the
model's store always holds the session employee, whose rows these are.) -/
def updateCartQty (s : Store) (itemId : String) (quantity : ℤ) :
    Except CartErr (Store × CartItem) :=
  if quantity < 1 then .error .invalidQuantity
  else
    match s.cart.find? (fun it => it.id == itemId) with
    | none => .error .cartItemNotFound
    | some item =>
      match getProduct s item.productId with
      | none => .error .productNotFound
      | some product =>
        if product.stock < quantity then .error .insufficientStock
        else
          let activeCampaignsWithLimit :=
            (getProductCampaigns s product.id).filter
              (fun c => c.isActive && c.maxProductsPerUser ≠ none)
          match updateCartCampaignLoop s item.id quantity activeCampaignsWithLimit with
          | .error e => .error e
          | .ok _ =>
            let updated := { item with quantity := quantity }
            .ok ({ s with
                    cart := s.cart.map (fun it => if it.id == item.id then updated else it) },
                 updated)

/-! ## Checkout Calculator
(`POST /api/orders` routes.ts 741–821,
`POST /api/orders/create-copay-order` routes.ts 833–963,
`POST /api/orders/verify-copay` routes.ts 996–1126,
`POST /api/bulkbuy/checkout` routes.ts 1928–2021,
`POST /api/bulkbuy/request` routes.ts 2044–2163) -/

inductive OrderErr where
  | cartEmpty
  | selectionLimit
  /-- `Product ${p?.name || item.productId} unavailable`. -/
  | productUnavailable (which : String)
  | insufficientPoints
  /-- co-pay guard: `Sufficient points, use normal checkout`. -/
  | sufficientPoints
  /-- gateway status missing/failed or `code !== "PAYMENT_SUCCESS"`. -/
  | paymentNotCompleted
  /-- `Amount mismatch` with the expected copay (INR) and the paid amount. -/
  | amountMismatch (expected : ℤ) (paid : ℚ)
  | bulkCartEmpty
  | noValidItems
  | invalidQuantity
  | invalidDeliveryMethod
  | addressRequired
  | bulkProductNotFound
  | colorRequired
  | sizeRequired
  | insufficientStock
  deriving DecidableEq

/-- `item.campaignId || undefined` when stamping an order (an empty string is
falsy in JavaScript). -/
def emptyToNone (c : Option String) : Option String :=
  match c with
  | some v => if v = "" then none else some v
  | none => none

/-- The slab-aware validation/points loop shared by the points and co-pay
handlers (routes.ts 769–777 and 1061–1071): each item's product must exist
with `stock >= quantity`, and the running total accumulates
`Math.ceil(unitPrice / inrPerPoint) * quantity`. -/
def computeTotalPoints (s : Store) (inr : ℚ) : List CartItem → Except OrderErr ℤ
  | [] => .ok 0
  | it :: rest =>
    match getProduct s it.productId with
    | none => .error (.productUnavailable it.productId)
    | some p =>
      if p.stock < it.quantity then
        .error (.productUnavailable (if p.name = "" then it.productId else p.name))
      else
        match computeTotalPoints s inr rest with
        | .error e => .error e
        | .ok t =>
          .ok (mathCeil (getUnitPriceForQty p (it.quantity : ℚ) / inr) * it.quantity + t)

/-- The order stamped for one cart item from the product `p` the commit loop
fetched: the two commit loops differ only in the extra metadata fields,
supplied by `extra`. -/
def mkOrder (employeeId : String) (inr : ℚ) (dm : String) (da : Option String)
    (extra : OrderMeta → OrderMeta) (p : Product) (it : CartItem) : Order :=
  let unitPrice := getUnitPriceForQty p (it.quantity : ℚ)
  { employeeId := employeeId, productId := it.productId,
    selectedColor := it.selectedColor, selectedSize := it.selectedSize,
    quantity := it.quantity, campaignId := emptyToNone it.campaignId,
    metadata := some (extra
      { usedPoints := mathCeil (unitPrice / inr) * it.quantity,
        unitPrice := unitPrice, copayInr := none, paymentId := none,
        phonepeOrderId := none, deliveryMethod := dm, deliveryAddress := da }) }

/-- The commit loop shared by the points and co-pay handlers (routes.ts
784–810 and 1086–1115): re-fetch each item's product, silently `continue`
when it is gone, otherwise write `stock := stock - quantity`, create the
order, and collect it for the response. -/
def commitOrders (inr : ℚ) (dm : String) (da : Option String)
    (extra : OrderMeta → OrderMeta) : Store → List CartItem → Store × List Order
  | s, [] => (s, [])
  | s, it :: rest =>
    match getProduct s it.productId with
    | none => commitOrders inr dm da extra s rest
    | some p =>
      let s1 := updateProductStock s it.productId (p.stock - it.quantity)
      let ord := mkOrder s.employee.id inr dm da extra p it
      let s2 := { s1 with orders := s1.orders ++ [ord] }
      ((commitOrders inr dm da extra s2 rest).1,
        ord :: (commitOrders inr dm da extra s2 rest).2)

/-- Lines 784–814 of the points handler: the commit loop over the cart, then
`points := userPoints - totalPointsRequired`, then `clearCart`.  This phase
cannot fail: a missing product is skipped, everything else commits. -/
def finalizePointsCheckout (s : Store) (inr : ℚ) (dm : String) (da : Option String)
    (total : ℤ) : Store × List Order :=
  let s1 := (commitOrders inr dm da id s s.cart).1
  let s2 := { s1 with employee := { s1.employee with points := s.employee.points - total } }
  ({ s2 with cart := [] }, (commitOrders inr dm da id s s.cart).2)

/-- `POST /api/orders` after authentication (routes.ts 741–821): empty-cart
check, selection-limit check, slab-aware points total with per-item stock
validation, points sufficiency, then the commit phase. -/
def placeOrders (s : Store) (dm : String) (da : Option String) :
    Except OrderErr (Store × List Order) :=
  let maxSelections := s.branding.maxSelectionsPerUser
  if s.cart.length = 0 then .error .cartEmpty
  else if maxSelections ≠ -1 ∧ maxSelections < (s.orders.length + s.cart.length : ℤ) then
    .error .selectionLimit
  else
    let inr := s.branding.inrPerPoint
    match computeTotalPoints s inr s.cart with
    | .error e => .error e
    | .ok total =>
      if s.employee.points < total then .error .insufficientPoints
      else .ok (finalizePointsCheckout s inr dm da total)

/-- `POST /api/orders/create-copay-order` up to the gateway call (routes.ts
846–879): the same preconditions, the guard `points >= total` (which sends
the caller to normal checkout), then `deficitPoints` and
`copayInr = Math.ceil(deficitPoints * inrPerPoint)`, returned as the pair
submitted to the gateway. -/
def createCopayOrder (s : Store) : Except OrderErr (ℤ × ℤ) :=
  if s.cart.length = 0 then .error .cartEmpty
  else
    let maxSelections := s.branding.maxSelectionsPerUser
    if maxSelections ≠ -1 ∧ maxSelections < (s.orders.length + s.cart.length : ℤ) then
      .error .selectionLimit
    else
      let inr := s.branding.inrPerPoint
      match computeTotalPoints s inr s.cart with
      | .error e => .error e
      | .ok total =>
        if total ≤ s.employee.points then .error .sufficientPoints
        else
          let deficitPoints := total - s.employee.points
          .ok (deficitPoints, mathCeil ((deficitPoints : ℚ) * inr))

/-- The gateway's verification response as the handler reads it:
`response.ok`, `result.success`, `result.code`, `result.data.amount ?? 0`
(in paise) and `result.data.transactionId`. -/
structure GatewayResult where
  httpOk : Bool
  success : Bool
  code : String
  amount : ℚ
  transactionId : Option String
  deriving DecidableEq

/-- Lines 1086–1118 of the co-pay handler: the commit loop stamping
`copayInr`, the gateway payment id and the transaction id, then
`points := 0`, then `clearCart`. -/
def finalizeCopayCheckout (s : Store) (inr : ℚ) (dm : String) (da : Option String)
    (copayInr : ℤ) (payId : Option String) (txnId : String) : Store × List Order :=
  let s1 := (commitOrders inr dm da
    (fun m => { m with copayInr := some copayInr, paymentId := payId,
                       phonepeOrderId := some txnId }) s s.cart).1
  let s2 := { s1 with employee := { s1.employee with points := 0 } }
  ({ s2 with cart := [] },
    (commitOrders inr dm da
      (fun m => { m with copayInr := some copayInr, paymentId := payId,
                         phonepeOrderId := some txnId }) s s.cart).2)

/-- `POST /api/orders/verify-copay` (routes.ts 996–1126): hard-fail unless
the gateway verification succeeded with `code = "PAYMENT_SUCCESS"`; then the
same preconditions as the points path, the `points >= total` guard, the
deficit/copay computation, and the exact-amount gate
`paidAmount !== copayInr` (with `paidAmount = amount / 100`) before any
write; only then the commit phase. -/
def verifyCopay (s : Store) (g : GatewayResult) (txnId : String) (dm : String)
    (da : Option String) : Except OrderErr (Store × List Order) :=
  if ¬ g.httpOk ∨ ¬ g.success ∨ g.code ≠ "PAYMENT_SUCCESS" then .error .paymentNotCompleted
  else if s.cart.length = 0 then .error .cartEmpty
  else
    let maxSelections := s.branding.maxSelectionsPerUser
    if maxSelections ≠ -1 ∧ maxSelections < (s.orders.length + s.cart.length : ℤ) then
      .error .selectionLimit
    else
      let inr := s.branding.inrPerPoint
      match computeTotalPoints s inr s.cart with
      | .error e => .error e
      | .ok total =>
        if total ≤ s.employee.points then .error .sufficientPoints
        else
          let deficitPoints := total - s.employee.points
          let copayInr := mathCeil ((deficitPoints : ℚ) * inr)
          let paidAmount := g.amount / 100
          if paidAmount ≠ (copayInr : ℚ) then .error (.amountMismatch copayInr paidAmount)
          else .ok (finalizeCopayCheckout s inr dm da copayInr g.transactionId txnId)

/-- JavaScript `Number((x).toFixed(2))` on the non-negative amounts the
bulk-buy snapshot computes: round to two decimals (ties away from zero,
which on these non-negative values is rounding half up). -/
def toFixed2 (q : ℚ) : ℚ := (round (q * 100) : ℤ) / 100

/-- The snapshot loop of `POST /api/bulkbuy/checkout` (routes.ts 1940–1961):
items whose product is gone or no longer flagged `bulkBuy` are skipped, an
out-of-stock product aborts, and each kept item contributes a frozen line
with `unitPrice` from the resolver and `lineTotal = Number((unitPrice*qty).toFixed(2))`
to the running total. -/
def bulkBuySnapshot (s : Store) : List CartItem → Except OrderErr (ℚ × List SnapItem)
  | [] => .ok (0, [])
  | it :: rest =>
    match getProduct s it.productId with
    | none => bulkBuySnapshot s rest
    | some p =>
      if ¬ p.bulkBuy then bulkBuySnapshot s rest
      else if p.stock < it.quantity then .error (.productUnavailable p.name)
      else
        let unitPrice := getUnitPriceForQty p (it.quantity : ℚ)
        let lineTotal := toFixed2 (unitPrice * (it.quantity : ℚ))
        match bulkBuySnapshot s rest with
        | .error e => .error e
        | .ok (t, snaps) =>
          .ok (lineTotal + t,
               { productId := p.id, name := p.name, sku := p.sku,
                 selectedColor := it.selectedColor, selectedSize := none,
                 quantity := it.quantity, unitPrice := unitPrice,
                 lineTotal := lineTotal } :: snaps)

/-- `storage.createBulkBuyRequest` without the id minting (storage.ts
668–706): persist the snapshot with status `pending_approval` and the
two-decimal total. -/
def mkBulkBuyRequest (employeeId dm : String) (da note : Option String)
    (items : List SnapItem) (totalAmount : ℚ) : BulkBuyRequest :=
  { employeeId := employeeId, status := "pending_approval", deliveryMethod := dm,
    deliveryAddress := da, requesterNote := note, items := items,
    totalAmount := toFixed2 totalAmount }

/-- `POST /api/bulkbuy/checkout` after the access guard (routes.ts
1928–1974): empty-cart check, snapshot loop, `No valid items` check, persist
the `BulkBuyRequest`, clear the bulk-buy cart.  (The notification emails are
the out-of-model side effect.)  There is no selection-limit check and no
points or stock write on this path. -/
def bulkBuyCheckout (s : Store) (dm : String) (da note : Option String) :
    Except OrderErr (Store × BulkBuyRequest) :=
  if s.bulkBuyCart.length = 0 then .error .bulkCartEmpty
  else
    match bulkBuySnapshot s s.bulkBuyCart with
    | .error e => .error e
    | .ok (total, itemsSnap) =>
      if itemsSnap.length = 0 then .error .noValidItems
      else
        let req := mkBulkBuyRequest s.employee.id dm da note itemsSnap total
        .ok ({ s with bulkBuyRequests := s.bulkBuyRequests ++ [req],
                      bulkBuyCart := [] }, req)

/-- `POST /api/bulkbuy/request` after the access guard (routes.ts 2044–2163):
the direct single-item variant with its own validations; it persists a
one-line snapshot (including `selectedSize`) and touches neither points nor
stock nor the bulk-buy cart. -/
def bulkBuyDirectRequest (s : Store) (productId : String) (quantity : ℤ)
    (selectedColor selectedSize : Option String) (dm : String)
    (da note : Option String) : Except OrderErr (Store × BulkBuyRequest) :=
  if quantity < 1 then .error .invalidQuantity
  else if dm ≠ "office" ∧ dm ≠ "delivery" then .error .invalidDeliveryMethod
  else if dm = "delivery" ∧ (da.getD "").trim = "" then .error .addressRequired
  else
    match getProduct s productId with
    | none => .error .bulkProductNotFound
    | some p =>
      if ¬ p.isActive ∨ ¬ p.bulkBuy then .error .bulkProductNotFound
      else if p.colors.length ≠ 0 ∧ selectedColor = none then .error .colorRequired
      else if p.sizes.length ≠ 0 ∧ selectedSize = none then .error .sizeRequired
      else if p.stock < quantity then .error .insufficientStock
      else
        let unitPrice := getUnitPriceForQty p (quantity : ℚ)
        let lineTotal := toFixed2 (unitPrice * (quantity : ℚ))
        let itemsSnap : List SnapItem :=
          [{ productId := p.id, name := p.name, sku := p.sku,
             selectedColor := selectedColor, selectedSize := selectedSize,
             quantity := quantity, unitPrice := unitPrice, lineTotal := lineTotal }]
        let req := mkBulkBuyRequest s.employee.id dm
          (if dm = "delivery" then da else none) note itemsSnap lineTotal
        .ok ({ s with bulkBuyRequests := s.bulkBuyRequests ++ [req] }, req)

/-! ## Identifier generation (storage.ts 458–478 and 668–706)

`createOrder` counts existing orders whose `orderDate` falls in the current
calendar year; `createBulkBuyRequest` counts *all* existing requests with no
year filter.  Both generators depend on the records only through their
years, so they are modelled over the list of years of the existing rows. -/

/-- `createOrder`'s id: `ORD-${year}-${String(count_in_year + 1).padStart(3, "0")}`. -/
def genOrderId (orderYears : List ℕ) (year : ℕ) : String :=
  "ORD-" ++ toString year ++ "-" ++
    padZero (toString ((orderYears.filter (fun y => y = year)).length + 1)) 3

/-- `createBulkBuyRequest`'s id:
`BBR-${year}-${String(total_count + 1).padStart(4, "0")}` — the
`count(*)` has no year condition. -/
def genBulkBuyRequestId (requestYears : List ℕ) (year : ℕ) : String :=
  "BBR-" ++ toString year ++ "-" ++ padZero (toString (requestYears.length + 1)) 4

/-- The bulk-buy id as the claim states it (count scoped to the calendar
year), written from the claim's words for comparison with
`genBulkBuyRequestId`. -/
def claimYearScopedBulkBuyRequestId (requestYears : List ℕ) (year : ℕ) : String :=
  "BBR-" ++ toString year ++ "-" ++
    padZero (toString ((requestYears.filter (fun y => y = year)).length + 1)) 4

/-- The spec's worked example for the resolver: slabs
`[{min:1, max:9, price:"100"}, {min:10, max:null, price:"80"}]` with base
price `"120"`. -/
def exSlabProduct : Product :=
  { id := "p1", name := "Example", sku := "SKU1", price := 120, stock := 100,
    priceSlabs := [⟨some 1, some (some 9), some 100⟩, ⟨some 10, none, some 80⟩],
    isActive := true, bulkBuy := false, colors := [], sizes := [] }

/-- The usage the claim prescribes for a quantity *update*: explicit
`campaignId` matches over historical orders plus current cart, excluding the
item being updated.  Written from the claim's words, for comparison with the
product-membership usage the code actually uses on that path. -/
def claimUpdateUsageExplicit (s : Store) (cid : String) (excludeItemId : String) : ℤ :=
  (s.orders.foldl
    (fun acc o => if o.campaignId = some cid then acc + orOne o.quantity else acc) 0) +
  (s.cart.foldl
    (fun acc c =>
      if c.id ≠ excludeItemId ∧ c.campaignId = some cid then acc + orOne c.quantity else acc) 0)

/-- Counterexample store for the campaign-limit claim: product `p1` belongs
to the active capped campaign `c1`; the employee has one historical order
and one cart item for `p1`, neither carrying an explicit `campaignId`. -/
def cexCampaignStore : Store :=
  { products := [{ id := "p1", name := "Prod One", sku := "S1", price := 10, stock := 10,
                   priceSlabs := [], isActive := true, bulkBuy := false,
                   colors := [], sizes := [] }],
    campaigns := [{ id := "c1", name := "Campaign One", isActive := true,
                    maxProductsPerUser := some 1 }],
    campaignProducts := [("c1", "p1")],
    employee := { id := "e1", points := 0 },
    orders := [{ employeeId := "e1", productId := "p1", selectedColor := none,
                 selectedSize := none, quantity := 1, campaignId := none,
                 metadata := none }],
    cart := [{ id := "i1", employeeId := "e1", productId := "p1", quantity := 1,
               selectedColor := none, selectedSize := none, campaignId := none }],
    bulkBuyCart := [], bulkBuyRequests := [],
    branding := { inrPerPoint := 1, maxSelectionsPerUser := -1 } }

/-- Witness store for the amended campaign-limit claim, on the spec's worked
numbers: cap 5, historical explicit usage 3, cart explicit usage 1. -/
def witCampaignStore : Store :=
  { products := [{ id := "p1", name := "Prod One", sku := "S1", price := 10, stock := 10,
                   priceSlabs := [], isActive := true, bulkBuy := false,
                   colors := [], sizes := [] }],
    campaigns := [{ id := "c2", name := "Summer", isActive := true,
                    maxProductsPerUser := some 5 }],
    campaignProducts := [],
    employee := { id := "e1", points := 0 },
    orders := [{ employeeId := "e1", productId := "p7", selectedColor := none,
                 selectedSize := none, quantity := 3, campaignId := some "c2",
                 metadata := none }],
    cart := [{ id := "i9", employeeId := "e1", productId := "p9", quantity := 1,
               selectedColor := none, selectedSize := none, campaignId := some "c2" }],
    bulkBuyCart := [], bulkBuyRequests := [],
    branding := { inrPerPoint := 1, maxSelectionsPerUser := -1 } }

/-- Witness store for the selection-limit claim: two historical orders, one
cart item, `maxSelectionsPerUser = 2`. -/
def witSelectionStore : Store :=
  { products := [], campaigns := [], campaignProducts := [],
    employee := { id := "e1", points := 0 },
    orders :=
      [{ employeeId := "e1", productId := "pA", selectedColor := none,
         selectedSize := none, quantity := 1, campaignId := none, metadata := none },
       { employeeId := "e1", productId := "pB", selectedColor := none,
         selectedSize := none, quantity := 1, campaignId := none, metadata := none }],
    cart := [{ id := "i1", employeeId := "e1", productId := "pA", quantity := 1,
               selectedColor := none, selectedSize := none, campaignId := none }],
    bulkBuyCart := [{ id := "b1", employeeId := "e1", productId := "pA", quantity := 1,
                      selectedColor := none, selectedSize := none, campaignId := none }],
    bulkBuyRequests := [],
    branding := { inrPerPoint := 1, maxSelectionsPerUser := 2 } }

/-- A successful gateway verification response with a zero amount, used where
only the success gate matters. -/
def okGate : GatewayResult :=
  { httpOk := true, success := true, code := "PAYMENT_SUCCESS", amount := 0,
    transactionId := none }

/-- Witness store for the bulk-buy path: one bulk-buy product and one
bulk-buy cart line of quantity 2. -/
def witBulkStore : Store :=
  { products := [{ id := "pB", name := "Bulky", sku := "SB", price := 40, stock := 5,
                   priceSlabs := [], isActive := true, bulkBuy := true,
                   colors := [], sizes := [] }],
    campaigns := [], campaignProducts := [],
    employee := { id := "e1", points := 7 },
    orders := [], cart := [],
    bulkBuyCart := [{ id := "b1", employeeId := "e1", productId := "pB", quantity := 2,
                      selectedColor := none, selectedSize := none, campaignId := none }],
    bulkBuyRequests := [],
    branding := { inrPerPoint := 1, maxSelectionsPerUser := -1 } }

/-- Total ordered quantity a list of cart items requests for one product. -/
def qtyFor (items : List CartItem) (pid : String) : ℤ :=
  ((items.filter (fun it => it.productId = pid)).map CartItem.quantity).sum

/-- Placeholder product for the (never-reached) missing-product case of
`orderOf`. -/
def defaultProduct : Product :=
  { id := "", name := "", sku := "", price := 0, stock := 0, priceSlabs := [],
    isActive := false, bulkBuy := false, colors := [], sizes := [] }

/-- The order the commit loop stamps for a cart item, read off the store the
loop started from (price data never changes during the loop, so the product
fetched mid-loop prices identically). -/
def stampedOrderOf (s : Store) (inr : ℚ) (dm : String) (da : Option String)
    (extra : OrderMeta → OrderMeta) (it : CartItem) : Order :=
  mkOrder s.employee.id inr dm da extra ((getProduct s it.productId).getD defaultProduct) it

/-- The spec's per-unit rounding example: base price `99`, no slabs. -/
def exPointsProduct : Product :=
  { id := "p99", name := "NinetyNine", sku := "S99", price := 99, stock := 10,
    priceSlabs := [], isActive := true, bulkBuy := false, colors := [], sizes := [] }

/-- Witness store for the checkout paths: one product at price 50, stock 5,
a cart of quantity 2, `inrPerPoint = 1`, 100 points. -/
def witPointsStore : Store :=
  { products := [{ id := "pP", name := "Points Prod", sku := "SP", price := 50, stock := 5,
                   priceSlabs := [], isActive := true, bulkBuy := false,
                   colors := [], sizes := [] }],
    campaigns := [], campaignProducts := [],
    employee := { id := "e1", points := 100 },
    orders := [], cart := [{ id := "i1", employeeId := "e1", productId := "pP",
                             quantity := 2, selectedColor := none, selectedSize := none,
                             campaignId := none }],
    bulkBuyCart := [], bulkBuyRequests := [],
    branding := { inrPerPoint := 1, maxSelectionsPerUser := -1 } }

/-- Witness store for the co-pay path, on the spec's worked numbers:
`totalPointsRequired = 500`, `employee.points = 300`. -/
def witCopayStore : Store :=
  { products := [{ id := "pC", name := "Copay Prod", sku := "SC", price := 500, stock := 5,
                   priceSlabs := [], isActive := true, bulkBuy := false,
                   colors := [], sizes := [] }],
    campaigns := [], campaignProducts := [],
    employee := { id := "e1", points := 300 },
    orders := [], cart := [{ id := "i1", employeeId := "e1", productId := "pC",
                             quantity := 1, selectedColor := none, selectedSize := none,
                             campaignId := none }],
    bulkBuyCart := [], bulkBuyRequests := [],
    branding := { inrPerPoint := 1, maxSelectionsPerUser := -1 } }

/-- A gateway verification that succeeded but paid 19900 paise (₹199), one
rupee short of the ₹200 co-pay. -/
def badAmountGate : GatewayResult :=
  { httpOk := true, success := true, code := "PAYMENT_SUCCESS", amount := 19900,
    transactionId := some "pay1" }

/-! ## Lemmas about the Slab Normalizer -/

theorem slabLE_total (a b : Slab) : slabLE a b ∨ slabLE b a := by
  unfold slabLE
  rcases lt_trichotomy a.minQty b.minQty with h | h | h
  · exact Or.inl (Or.inl h)
  · rcases le_total a.maxQty b.maxQty with hm | hm
    · exact Or.inl (Or.inr ⟨h, hm⟩)
    · exact Or.inr (Or.inr ⟨h.symm, hm⟩)
  · exact Or.inr (Or.inl h)

theorem slabLE_trans {a b c : Slab} (hab : slabLE a b) (hbc : slabLE b c) : slabLE a c := by
  unfold slabLE at *
  rcases hab with h | ⟨he, hm⟩
  · rcases hbc with h' | ⟨he', _⟩
    · exact Or.inl (h.trans h')
    · exact Or.inl (he' ▸ h)
  · rcases hbc with h' | ⟨he', hm'⟩
    · exact Or.inl (he ▸ h')
    · exact Or.inr ⟨he.trans he', hm.trans hm'⟩

theorem insertSlab_perm (a : Slab) (l : List Slab) :
    (insertSlab a l).Perm (a :: l) := by
  induction l with
  | nil => simp [insertSlab]
  | cons b l ih =>
    by_cases h : slabLE a b
    · simp [insertSlab, h]
    · simp only [insertSlab, if_neg h]
      exact (ih.cons b).trans (List.Perm.swap a b l)

theorem mem_insertSlab {a x : Slab} {l : List Slab} (h : x ∈ insertSlab a l) :
    x = a ∨ x ∈ l := by
  have := (insertSlab_perm a l).mem_iff.mp h
  simpa using this

theorem insertSlab_sorted (a : Slab) {l : List Slab} (h : l.Pairwise slabLE) :
    (insertSlab a l).Pairwise slabLE := by
  induction l with
  | nil => simp [insertSlab]
  | cons b l ih =>
    rcases List.pairwise_cons.mp h with ⟨hb, hl⟩
    by_cases hab : slabLE a b
    · simp only [insertSlab, if_pos hab]
      refine List.pairwise_cons.mpr ⟨?_, h⟩
      intro x hx
      rcases List.mem_cons.mp hx with rfl | hx
      · exact hab
      · exact slabLE_trans hab (hb x hx)
    · have hba : slabLE b a := (slabLE_total a b).resolve_left hab
      simp only [insertSlab, if_neg hab]
      refine List.pairwise_cons.mpr ⟨?_, ih hl⟩
      intro x hx
      rcases mem_insertSlab hx with rfl | hx
      · exact hba
      · exact hb x hx

theorem sortSlabs_perm (l : List Slab) : (sortSlabs l).Perm l := by
  induction l with
  | nil => simp [sortSlabs]
  | cons a l ih =>
    have : sortSlabs (a :: l) = insertSlab a (sortSlabs l) := rfl
    rw [this]
    exact (insertSlab_perm a (sortSlabs l)).trans (ih.cons a)

theorem sortSlabs_sorted (l : List Slab) : (sortSlabs l).Pairwise slabLE := by
  induction l with
  | nil => simp [sortSlabs]
  | cons a l ih => exact insertSlab_sorted a ih

theorem checkOverlaps_ok {l : List Slab} (h : checkOverlaps l = .ok ()) :
    l.Pairwise (fun a b => ¬ slabsOverlap a b) := by
  induction l with
  | nil => simp
  | cons a rest ih =>
    by_cases hany : rest.any (fun b => decide (slabsOverlap a b))
    · simp [checkOverlaps, hany] at h
    · simp only [checkOverlaps, hany, if_false, Bool.false_eq_true, if_neg] at h
      refine List.pairwise_cons.mpr ⟨?_, ih h⟩
      intro b hb hover
      exact hany (List.any_eq_true.mpr ⟨b, hb, by simpa using hover⟩)

theorem validateAll_ok : ∀ {l : List RawSlab} {l' : List Slab},
    validateAll l = .ok l' → List.Forall₂ (fun s t => validateSlab s = .ok t) l l'
  | [], l', h => by
    simp only [validateAll] at h
    cases h
    exact List.Forall₂.nil
  | s :: rest, l', h => by
    simp only [validateAll] at h
    cases hv : validateSlab s with
    | error e => rw [hv] at h; cases h
    | ok t =>
      rw [hv] at h
      cases hr : validateAll rest with
      | error e => rw [hr] at h; cases h
      | ok ts =>
        rw [hr] at h
        cases h
        exact List.Forall₂.cons hv (validateAll_ok hr)

theorem validateSlab_minQty {s : RawSlab} {t : Slab} (h : validateSlab s = .ok t) :
    t.minQty = s.minQty.getD 0 := by
  unfold validateSlab at h
  cases hp : s.priceNum with
  | none => rw [hp] at h; cases h
  | some p =>
    rw [hp] at h
    by_cases hneg : p < 0
    · simp [hneg] at h
    · simp only [hneg, if_false, Bool.false_eq_true, if_neg, not_false_iff] at h
      cases hm : s.maxQty with
      | none => rw [hm] at h; cases h; rfl
      | some jm =>
        rw [hm] at h
        cases jm with
        | none => cases h
        | some mx =>
          by_cases hlt : mx < s.minQty.getD 0
          · simp [hlt] at h
          · simp only [hlt, if_false, Bool.false_eq_true, if_neg, not_false_iff] at h
            cases h; rfl

theorem validateSlab_maxQty {s : RawSlab} {t : Slab} (h : validateSlab s = .ok t) :
    t.maxQty = rawMaxInf s := by
  unfold validateSlab at h
  cases hp : s.priceNum with
  | none => rw [hp] at h; cases h
  | some p =>
    rw [hp] at h
    by_cases hneg : p < 0
    · simp [hneg] at h
    · simp only [hneg, if_false, Bool.false_eq_true, if_neg, not_false_iff] at h
      cases hm : s.maxQty with
      | none => rw [hm] at h; cases h; simp [rawMaxInf, hm]
      | some jm =>
        rw [hm] at h
        cases jm with
        | none => cases h
        | some mx =>
          by_cases hlt : mx < s.minQty.getD 0
          · simp [hlt] at h
          · simp only [hlt, if_false, Bool.false_eq_true, if_neg, not_false_iff] at h
            cases h; simp [rawMaxInf, hm]

theorem forall₂_mem_right {α β : Type} {R : α → β → Prop} :
    ∀ {l : List α} {l' : List β}, List.Forall₂ R l l' → ∀ a ∈ l, ∃ b ∈ l', R a b := by
  intro l l' hf
  induction hf with
  | nil => intro a ha; cases ha
  | cons hx hf ih =>
    intro a ha
    rcases List.mem_cons.mp ha with rfl | ha
    · exact ⟨_, List.mem_cons_self _ _, hx⟩
    · obtain ⟨b, hb, hR⟩ := ih a ha
      exact ⟨b, List.mem_cons_of_mem _ hb, hR⟩

theorem forall₂_pairwise_transfer {R : RawSlab → Slab → Prop}
    {P : RawSlab → RawSlab → Prop} {Q : Slab → Slab → Prop}
    (hPQ : ∀ a b a' b', R a a' → R b b' → Q a' b' → P a b) :
    ∀ {l : List RawSlab} {l' : List Slab},
      List.Forall₂ R l l' → l'.Pairwise Q → l.Pairwise P := by
  intro l l' hf
  induction hf with
  | nil => intro _; exact List.Pairwise.nil
  | cons ha hf ih =>
    intro hq
    rcases List.pairwise_cons.mp hq with ⟨hhead, htail⟩
    refine List.pairwise_cons.mpr ⟨?_, ih htail⟩
    intro b hb
    obtain ⟨b', hb', hR⟩ := forall₂_mem_right hf b hb
    exact hPQ _ b _ b' ha hR (hhead b' hb')

theorem slabsOverlap_symm {a b : Slab} (h : slabsOverlap a b) : slabsOverlap b a :=
  ⟨h.2, h.1⟩

/-- Destructuring a successful normalization into its stages. -/
theorem normalizePriceSlabs_ok {input : List RawSlab} {l : List Slab}
    (h : normalizePriceSlabs input = .ok l) :
    ∃ vetted, validateAll (input.filter keepRaw) = .ok vetted ∧
      ¬ 1 < (vetted.filter (fun s => s.maxQty = ⊤)).length ∧
      checkOverlaps (sortSlabs vetted) = .ok () ∧ l = sortSlabs vetted := by
  dsimp only [normalizePriceSlabs] at h
  cases hv : validateAll (input.filter keepRaw) with
  | error e => rw [hv] at h; cases h
  | ok vetted =>
    rw [hv] at h
    by_cases hcount : 1 < (vetted.filter (fun s => s.maxQty = ⊤)).length
    · simp [hcount] at h
    · simp only [hcount, if_false, Bool.false_eq_true, if_neg, not_false_iff] at h
      cases hov : checkOverlaps (sortSlabs vetted) with
      | error e => rw [hov] at h; cases h
      | ok u =>
        cases u
        rw [hov] at h
        cases h
        exact ⟨vetted, rfl, hcount, hov, rfl⟩

/-- The overlap loop only ever fails with the overlap message. -/
theorem checkOverlaps_error :
    ∀ {l : List Slab} {e : String}, checkOverlaps l = .error e →
      e = "Slab ranges overlap. Please make ranges non-overlapping." := by
  intro l
  induction l with
  | nil => intro e h; simp [checkOverlaps] at h
  | cons a rest ih =>
    intro e h
    by_cases hany : rest.any (fun b => decide (slabsOverlap a b))
    · simp only [checkOverlaps, if_pos hany] at h
      cases h
      rfl
    · simp only [checkOverlaps, hany, if_false, Bool.false_eq_true, if_neg,
        not_false_iff] at h
      exact ih h

/-- **C5.**  Every list the Slab Normalizer accepts comes back sorted
ascending by `(minQty, maxQty-or-infinity)`, holds at most one open-ended
(`maxQty = null`, modelled `⊤`) slab, and has no pair of slabs whose closed
intervals `[minQty, maxQty-or-infinity]` overlap — and the retained
(filtered) input slabs of an accepted input are themselves pairwise
non-overlapping under the claim's test.  Conversely, an input two of whose
retained slabs overlap is never accepted: when the earlier rules (price and
range validation, single open-ended slab) pass, normalization fails with the
overlap error instead of returning. -/
theorem slab_normalizer_output_sorted_unique_nonoverlapping
    (input : List RawSlab) :
    (∀ l, normalizePriceSlabs input = .ok l →
      l.Pairwise slabLE ∧
      (l.filter (fun s => s.maxQty = ⊤)).length ≤ 1 ∧
      l.Pairwise (fun a b => ¬ slabsOverlap a b) ∧
      (input.filter keepRaw).Pairwise (fun a b => ¬ rawOverlap a b)) ∧
    (∀ vetted, validateAll (input.filter keepRaw) = .ok vetted →
      ¬ 1 < (vetted.filter (fun s => s.maxQty = ⊤)).length →
      ¬ (input.filter keepRaw).Pairwise (fun a b => ¬ rawOverlap a b) →
      normalizePriceSlabs input =
        .error "Slab ranges overlap. Please make ranges non-overlapping.") := by
  have hmain : ∀ l, normalizePriceSlabs input = .ok l →
      l.Pairwise slabLE ∧
      (l.filter (fun s => s.maxQty = ⊤)).length ≤ 1 ∧
      l.Pairwise (fun a b => ¬ slabsOverlap a b) ∧
      (input.filter keepRaw).Pairwise (fun a b => ¬ rawOverlap a b) := by
    intro l h
    obtain ⟨vetted, hv, hcount, hov, rfl⟩ := normalizePriceSlabs_ok h
    have hperm : (sortSlabs vetted).Perm vetted := sortSlabs_perm vetted
    have hnol : (sortSlabs vetted).Pairwise (fun a b => ¬ slabsOverlap a b) :=
      checkOverlaps_ok hov
    refine ⟨sortSlabs_sorted vetted, ?_, hnol, ?_⟩
    · have := (hperm.filter (fun s => decide (s.maxQty = ⊤))).length_eq
      omega
    · have hnov : vetted.Pairwise (fun a b => ¬ slabsOverlap a b) :=
        (List.Perm.pairwise_iff (fun h' hov' => h' (slabsOverlap_symm hov')) hperm).mp hnol
      refine forall₂_pairwise_transfer ?_ (validateAll_ok hv) hnov
      intro a b a' b' hRa hRb hQ hraw
      apply hQ
      refine ⟨?_, ?_⟩
      · rw [validateSlab_minQty hRa, validateSlab_maxQty hRb]
        exact hraw.1
      · rw [validateSlab_minQty hRb, validateSlab_maxQty hRa]
        exact hraw.2
  refine ⟨hmain, ?_⟩
  intro vetted hv hcount hnp
  cases hov : checkOverlaps (sortSlabs vetted) with
  | ok u =>
    cases u
    have hok : normalizePriceSlabs input = .ok (sortSlabs vetted) := by
      dsimp only [normalizePriceSlabs]
      simp only [hv, if_neg hcount, hov]
    exact absurd (hmain _ hok).2.2.2 hnp
  | error e =>
    have herr : normalizePriceSlabs input = .error e := by
      dsimp only [normalizePriceSlabs]
      simp only [hv, if_neg hcount, hov]
    rw [herr, checkOverlaps_error hov]

/-- Witness for C5: the theorem applied to a concretely accepted two-slab
input (`[{min 10, max null, "80"}, {min 1, max 9, "100"}]`), and to the
spec's overlap test `[{min 1, max 10}, {min 5, max 15}]`, which fails with
the overlap error. -/
theorem slab_normalizer_witness :
    (List.Pairwise slabLE
        [⟨1, ((9 : ℚ) : WithTop ℚ), "100"⟩, ⟨10, ⊤, "80"⟩] ∧
      (([⟨1, ((9 : ℚ) : WithTop ℚ), "100"⟩, ⟨10, ⊤, "80"⟩] : List Slab).filter
          (fun s => s.maxQty = ⊤)).length ≤ 1 ∧
      List.Pairwise (fun a b => ¬ slabsOverlap a b)
        [⟨1, ((9 : ℚ) : WithTop ℚ), "100"⟩, ⟨10, ⊤, "80"⟩] ∧
      (([⟨some 10, none, "80", some 80⟩,
          ⟨some 1, some (some 9), "100", some 100⟩] : List RawSlab).filter
          keepRaw).Pairwise (fun a b => ¬ rawOverlap a b)) ∧
    normalizePriceSlabs
        [⟨some 1, some (some 10), "50", some 50⟩,
          ⟨some 5, some (some 15), "60", some 60⟩] =
      .error "Slab ranges overlap. Please make ranges non-overlapping." :=
  ⟨(slab_normalizer_output_sorted_unique_nonoverlapping
      [⟨some 10, none, "80", some 80⟩, ⟨some 1, some (some 9), "100", some 100⟩]).1
      [⟨1, ((9 : ℚ) : WithTop ℚ), "100"⟩, ⟨10, ⊤, "80"⟩] rfl,
    (slab_normalizer_output_sorted_unique_nonoverlapping
      [⟨some 1, some (some 10), "50", some 50⟩,
        ⟨some 5, some (some 15), "60", some 60⟩]).2
      [⟨1, ((10 : ℚ) : WithTop ℚ), "50"⟩, ⟨5, ((15 : ℚ) : WithTop ℚ), "60"⟩]
      rfl (by decide) (by decide)⟩

/-! ## Lemmas about the Unit Price Resolver -/

theorem psOverlap_symm {a b : ProductSlab} (h : psOverlap a b) : psOverlap b a :=
  ⟨h.2, h.1⟩

instance : ∀ a b, Decidable (psOverlap a b) := fun a b => by
  unfold psOverlap; infer_instance

theorem not_psOverlap_symmetric : Symmetric (fun a b => ¬ psOverlap a b) :=
  fun _ _ hxy hov => hxy (psOverlap_symm hov)

theorem slabContains_bounds {s : ProductSlab} {q : ℚ} (h : slabContains s q = true) :
    ((s.minQty.getD 0 : ℚ) : WithTop ℚ) ≤ (q : WithTop ℚ) ∧
      (q : WithTop ℚ) ≤ psMaxInf s := by
  unfold slabContains at h
  cases hmn : s.minQty with
  | none => rw [hmn] at h; cases h
  | some mn =>
    rw [hmn] at h
    simp only [Bool.and_eq_true, decide_eq_true_eq] at h
    refine ⟨?_, ?_⟩
    · simpa [hmn] using (WithTop.coe_le_coe.mpr h.1)
    · have h2 := h.2
      cases hmx : s.maxQty with
      | none => simp [psMaxInf, hmx]
      | some jm =>
        rw [hmx] at h2
        cases jm with
        | none => cases h2
        | some mx =>
          simp only [decide_eq_true_eq] at h2
          simpa [psMaxInf, hmx] using (WithTop.coe_le_coe.mpr h2)

/-- Under the data-model invariant (pairwise non-overlapping intervals), at
most one slab contains a given quantity. -/
theorem slabContains_unique {l : List ProductSlab} {q : ℚ}
    (hno : l.Pairwise (fun a b => ¬ psOverlap a b)) {s t : ProductSlab}
    (hs : s ∈ l) (ht : t ∈ l) (hcs : slabContains s q = true)
    (hct : slabContains t q = true) : s = t := by
  by_contra hne
  have hforall := List.Pairwise.forall not_psOverlap_symmetric hno
  have hnov : ¬ psOverlap s t := hforall hs ht hne
  obtain ⟨hs1, hs2⟩ := slabContains_bounds hcs
  obtain ⟨ht1, ht2⟩ := slabContains_bounds hct
  exact hnov ⟨le_trans hs1 ht2, le_trans ht1 hs2⟩

theorem find?_eq_of_mem_unique {l : List ProductSlab} {q : ℚ}
    (hno : l.Pairwise (fun a b => ¬ psOverlap a b)) {s : ProductSlab}
    (hs : s ∈ l) (hcs : slabContains s q = true) :
    l.find? (fun x => slabContains x q) = some s := by
  cases hf : l.find? (fun x => slabContains x q) with
  | none =>
    exact absurd hcs (by simpa using (List.find?_eq_none.mp hf s hs))
  | some m =>
    have hm : m ∈ l := List.mem_of_find?_eq_some hf
    have hcm : slabContains m q = true := (List.find?_eq_some.mp hf).1
    rw [slabContains_unique hno hm hs hcm hcs]

/-- **C6.**  The Unit Price Resolver returns the base price when the product
has no slabs; for a product whose slabs satisfy the data-model invariant
(pairwise non-overlapping intervals, so that the first matching slab in
ascending sorted order is the unique matching slab), it returns the matching
slab's price whenever that price is a finite number `>= 0`, and the base
price when no slab matches or the matching slab's price does not so parse;
and on the spec's example (slabs `1–9 ↦ "100"`, `10–∞ ↦ "80"`, base
`"120"`), quantity 5 resolves to 100 and quantity 10 to 80. -/
theorem unit_price_resolver_spec (product : Product) (q : ℚ)
    (hno : product.priceSlabs.Pairwise (fun a b => ¬ psOverlap a b)) :
    (product.priceSlabs = [] → getUnitPriceForQty product q = product.price) ∧
    (∀ s ∈ product.priceSlabs, slabContains s q = true →
      (∀ sp, s.price = some sp → 0 ≤ sp → getUnitPriceForQty product q = sp) ∧
      (s.price = none → getUnitPriceForQty product q = product.price) ∧
      (∀ sp, s.price = some sp → sp < 0 → getUnitPriceForQty product q = product.price)) ∧
    ((∀ s ∈ product.priceSlabs, slabContains s q = false) →
      getUnitPriceForQty product q = product.price) ∧
    (getUnitPriceForQty exSlabProduct 5 = 100 ∧ getUnitPriceForQty exSlabProduct 10 = 80) := by
  refine ⟨?_, ?_, ?_, rfl, rfl⟩
  · intro h
    simp [getUnitPriceForQty, h]
  · intro s hs hcs
    have hfind := find?_eq_of_mem_unique hno hs hcs
    have hne : ¬ product.priceSlabs.isEmpty := by
      cases hl : product.priceSlabs with
      | nil => rw [hl] at hs; cases hs
      | cons a l => simp [hl]
    refine ⟨?_, ?_, ?_⟩
    · intro sp hsp hge
      simp [getUnitPriceForQty, hne, hfind, hsp, not_lt.mpr hge]
    · intro hsp
      simp [getUnitPriceForQty, hne, hfind, hsp]
    · intro sp hsp hlt
      simp [getUnitPriceForQty, hne, hfind, hsp, hlt]
  · intro h
    cases hl : product.priceSlabs with
    | nil => simp [getUnitPriceForQty, hl]
    | cons a l =>
      have hfind : product.priceSlabs.find? (fun x => slabContains x q) = none :=
        List.find?_eq_none.mpr (by intro x hx; simp [h x hx])
      simp [getUnitPriceForQty, hl, hl ▸ hfind]

/-- Witness for C6 at the spec's example product and quantity 5. -/
theorem unit_price_resolver_witness :
    getUnitPriceForQty exSlabProduct 5 = 100 ∧ getUnitPriceForQty exSlabProduct 10 = 80 :=
  (unit_price_resolver_spec exSlabProduct 5 (by decide)).2.2.2

/-! ## Identifier generation: theorems -/

/-- **C9, counterexample.**  Order ids are scoped to the calendar year, but a
bulk-buy request id is numbered from the count of *all* existing requests:
with one existing request dated 2025 and none in 2026, the next id minted in
2026 is `BBR-2026-0002`, not the `BBR-2026-0001` the year-scoped claim
predicts. -/
theorem bulkbuy_id_not_year_scoped :
    genBulkBuyRequestId [2025] 2026 = "BBR-2026-0002" ∧
      claimYearScopedBulkBuyRequestId [2025] 2026 = "BBR-2026-0001" ∧
      genBulkBuyRequestId [2025] 2026 ≠ claimYearScopedBulkBuyRequestId [2025] 2026 := by
  refine ⟨rfl, rfl, ?_⟩
  decide

/-- **C9, amended.**  `ORD-YYYY-NNN` ids are zero-padded from the count of
existing orders in the current calendar year plus one; `BBR-YYYY-NNNN` ids
carry the current calendar year but are zero-padded from the count of *all*
existing bulk-buy requests (any year) plus one.  Concretely: with two 2026
orders and one 2025 order already stored, the next 2026 order id is
`ORD-2026-003`; with requests stored for 2024 and 2025, the next 2026
request id is `BBR-2026-0003`. -/
theorem id_generation_formats (orderYears requestYears : List ℕ) (year : ℕ) :
    genOrderId orderYears year =
      "ORD-" ++ toString year ++ "-" ++
        padZero (toString ((orderYears.filter (fun y => y = year)).length + 1)) 3 ∧
    genBulkBuyRequestId requestYears year =
      "BBR-" ++ toString year ++ "-" ++ padZero (toString (requestYears.length + 1)) 4 ∧
    genOrderId [2026, 2025, 2026] 2026 = "ORD-2026-003" ∧
    genBulkBuyRequestId [2024, 2025] 2026 = "BBR-2026-0003" :=
  ⟨rfl, rfl, rfl, rfl⟩

/-! ## Campaign Limit Evaluator: theorems -/

/-- The update-path campaign loop succeeds exactly when every listed campaign
has room for the new quantity. -/
theorem updateCartCampaignLoop_ok_iff (s : Store) (itemId : String) (quantity : ℤ) :
    ∀ cs : List Campaign,
      updateCartCampaignLoop s itemId quantity cs = .ok () ↔
        ∀ c ∈ cs, ¬ (c.maxProductsPerUser.getD 0 <
          campaignUsageByProducts s (getCampaignProductIds s c.id) itemId + quantity) := by
  intro cs
  induction cs with
  | nil => simp [updateCartCampaignLoop]
  | cons c rest ih =>
    by_cases hc : c.maxProductsPerUser.getD 0 <
        campaignUsageByProducts s (getCampaignProductIds s c.id) itemId + quantity
    · simp only [updateCartCampaignLoop, if_pos hc]
      constructor
      · intro h; cases h
      · intro h'; exact absurd hc (h' c (List.mem_cons_self _ _))
    · simp only [updateCartCampaignLoop, if_neg hc]
      rw [ih]
      constructor
      · intro h' x hx
        rcases List.mem_cons.mp hx with rfl | hx
        · exact hc
        · exact h' x hx
      · intro h' x hx
        exact h' x (List.mem_cons_of_mem _ hx)

/-- A failing update-path campaign loop names a violated campaign and its
cap. -/
theorem updateCartCampaignLoop_error_shape (s : Store) (itemId : String) (quantity : ℤ) :
    ∀ (cs : List Campaign) (e : CartErr),
      updateCartCampaignLoop s itemId quantity cs = .error e →
        ∃ c ∈ cs, e = .campaignLimit c.name (c.maxProductsPerUser.getD 0) ∧
          c.maxProductsPerUser.getD 0 <
            campaignUsageByProducts s (getCampaignProductIds s c.id) itemId + quantity := by
  intro cs
  induction cs with
  | nil => intro e h; simp [updateCartCampaignLoop] at h
  | cons c rest ih =>
    intro e h
    by_cases hc : c.maxProductsPerUser.getD 0 <
        campaignUsageByProducts s (getCampaignProductIds s c.id) itemId + quantity
    · simp only [updateCartCampaignLoop, if_pos hc] at h
      cases h
      exact ⟨c, List.mem_cons_self _ _, rfl, hc⟩
    · simp only [updateCartCampaignLoop, if_neg hc] at h
      obtain ⟨c', hc', he, hlt⟩ := ih e h
      exact ⟨c', List.mem_cons_of_mem _ hc', he, hlt⟩

/-- **C3, counterexample.**  Updating the quantity of a cart item is gated by
product-to-campaign *membership*, not by the explicit `campaignId` field: in
`cexCampaignStore` neither the historical order nor the cart item carries a
`campaignId`, so the claim's usage (explicit matches, excluding the updated
item) is `0` and `0 + 1 ≤ cap = 1` should be allowed — yet the update of
item `i1` to quantity 1 is rejected with the campaign's limit error because
the order's product belongs to campaign `c1`. -/
theorem campaign_limit_update_counterexample :
    updateCartQty cexCampaignStore "i1" 1 = .error (.campaignLimit "Campaign One" 1) ∧
      claimUpdateUsageExplicit cexCampaignStore "c1" "i1" + 1 ≤ 1 ∧
      getCampaign cexCampaignStore "c1" =
        some { id := "c1", name := "Campaign One", isActive := true,
               maxProductsPerUser := some 1 } := by
  refine ⟨rfl, by decide, rfl⟩

/-- **C3, amended.**  Adding to the cart evaluates the cap against explicit
`campaignId` usage (historical orders plus whole current cart) and rejects,
naming the campaign and its cap, exactly when `usage + requestedQty > cap`;
a missing `campaignId`, an unknown or inactive campaign, or a `null` cap
skips the check.  Updating a cart item's quantity instead checks every
active capped campaign *linked to the item's product*, with usage counted by
product membership over historical orders plus the cart excluding the
updated item, rejecting exactly when some such campaign has
`usage + newQuantity > cap`. -/
theorem campaign_limit_evaluation (s : Store) (qty : ℤ) :
    (∀ (pid : String) (col sz : Option String) (cid fresh : String)
        (product : Product) (campaign : Campaign) (limit : ℤ),
      getProduct s pid = some product → ¬ product.stock < qty →
      getCampaign s cid = some campaign → campaign.isActive = true →
      campaign.maxProductsPerUser = some limit →
      ((∃ n l', addToCart s pid qty col sz (some cid) fresh =
          .error (.campaignLimit n l')) ↔
        limit < campaignUsageExplicit s campaign.id + qty) ∧
      (limit < campaignUsageExplicit s campaign.id + qty →
        addToCart s pid qty col sz (some cid) fresh =
          .error (.campaignLimit campaign.name limit))) ∧
    (∀ (cid : Option String), (∀ c lim, cid = some c →
        (getCampaign s c).map Campaign.maxProductsPerUser ≠ some (some lim)) →
      addCartCampaignCheck s cid qty = .ok ()) ∧
    (∀ (itemId : String) (item : CartItem) (product : Product),
      ¬ qty < 1 → s.cart.find? (fun it => it.id == itemId) = some item →
      getProduct s item.productId = some product → ¬ product.stock < qty →
      ((∃ n l', updateCartQty s itemId qty = .error (.campaignLimit n l')) ↔
        ∃ c ∈ (getProductCampaigns s product.id).filter
            (fun c => c.isActive && c.maxProductsPerUser ≠ none),
          c.maxProductsPerUser.getD 0 <
            campaignUsageByProducts s (getCampaignProductIds s c.id) item.id + qty)) := by
  refine ⟨?_, ?_, ?_⟩
  · intro pid col sz cid fresh product campaign limit hp hstock hc hact hlim
    have hgate : addCartCampaignCheck s (some cid) qty =
        (if limit < campaignUsageExplicit s campaign.id + qty then
          .error (.campaignLimit campaign.name limit) else .ok ()) := by
      simp [addCartCampaignCheck, hc, hlim, hact]
    constructor
    · constructor
      · intro ⟨n, l', hres⟩
        by_contra hcond
        rw [if_neg hcond] at hgate
        simp only [addToCart, hp, if_neg hstock, hgate] at hres
        cases hfind : s.cart.find? (fun it =>
            it.productId == pid && it.selectedColor == col && it.selectedSize == sz) with
        | some existing =>
          simp only [hfind] at hres
          by_cases hs2 : product.stock < orOne existing.quantity + qty
          · simp only [if_pos hs2] at hres; cases hres
          · simp only [if_neg hs2] at hres; cases hres
        | none => simp only [hfind] at hres; cases hres
      · intro hcond
        rw [if_pos hcond] at hgate
        refine ⟨campaign.name, limit, ?_⟩
        simp only [addToCart, hp, if_neg hstock, hgate]
    · intro hcond
      rw [if_pos hcond] at hgate
      simp only [addToCart, hp, if_neg hstock, hgate]
  · intro cid hnone
    cases cid with
    | none => simp [addCartCampaignCheck]
    | some c =>
      cases hc : getCampaign s c with
      | none => simp [addCartCampaignCheck, hc]
      | some campaign =>
        cases hlim : campaign.maxProductsPerUser with
        | none => simp [addCartCampaignCheck, hc, hlim]
        | some lim => exact absurd (by simp [hc, hlim]) (hnone c lim rfl)
  · intro itemId item product hq hfind hp hstock
    simp only [updateCartQty, if_neg hq, hfind, hp, if_neg hstock]
    cases hloop : updateCartCampaignLoop s item.id qty
        ((getProductCampaigns s product.id).filter
          (fun c => c.isActive && c.maxProductsPerUser ≠ none)) with
    | error e =>
      simp only [hloop]
      obtain ⟨c, hcmem, he, hlt⟩ := updateCartCampaignLoop_error_shape _ _ _ _ _ hloop
      constructor
      · intro _; exact ⟨c, hcmem, hlt⟩
      · intro _; exact ⟨c.name, c.maxProductsPerUser.getD 0, by rw [he]⟩
    | ok u =>
      cases u
      simp only [hloop]
      constructor
      · intro ⟨n, l', hres⟩; cases hres
      · intro ⟨c, hcmem, hlt⟩
        exact absurd hlt (((updateCartCampaignLoop_ok_iff s item.id qty _).mp hloop) c hcmem)

/-- Witness for the amended C3 on the spec's worked numbers (cap 5,
historical usage 3, cart usage 1): requesting quantity 2 is rejected with the
campaign's name and cap, requesting quantity 1 is not. -/
theorem campaign_limit_witness :
    addToCart witCampaignStore "p1" 2 none none (some "c2") "new" =
      .error (.campaignLimit "Summer" 5) ∧
    ¬ ∃ n l', addToCart witCampaignStore "p1" 1 none none (some "c2") "new" =
      .error (.campaignLimit n l') := by
  constructor
  · exact ((campaign_limit_evaluation witCampaignStore 2).1 "p1" none none "c2" "new"
      { id := "p1", name := "Prod One", sku := "S1", price := 10, stock := 10,
        priceSlabs := [], isActive := true, bulkBuy := false, colors := [], sizes := [] }
      { id := "c2", name := "Summer", isActive := true, maxProductsPerUser := some 5 }
      5 rfl (by decide) rfl rfl rfl).2 (by decide)
  · intro h
    exact absurd (((campaign_limit_evaluation witCampaignStore 1).1 "p1" none none "c2" "new"
      { id := "p1", name := "Prod One", sku := "S1", price := 10, stock := 10,
        priceSlabs := [], isActive := true, bulkBuy := false, colors := [], sizes := [] }
      { id := "c2", name := "Summer", isActive := true, maxProductsPerUser := some 5 }
      5 rfl (by decide) rfl rfl rfl).1.mp h) (by decide)

/-! ## Selection limit: theorems -/

/-- The validation/points loop only ever fails with a product-unavailability
error. -/
theorem computeTotalPoints_error_shape (s : Store) (inr : ℚ) :
    ∀ (items : List CartItem) (e : OrderErr),
      computeTotalPoints s inr items = .error e → ∃ w, e = .productUnavailable w := by
  intro items
  induction items with
  | nil => intro e h; simp [computeTotalPoints] at h
  | cons it rest ih =>
    intro e h
    simp only [computeTotalPoints] at h
    cases hgp : getProduct s it.productId with
    | none => simp only [hgp] at h; cases h; exact ⟨_, rfl⟩
    | some p =>
      simp only [hgp] at h
      by_cases hstock : p.stock < it.quantity
      · rw [if_pos hstock] at h; cases h; exact ⟨_, rfl⟩
      · rw [if_neg hstock] at h
        cases hrec : computeTotalPoints s inr rest with
        | error e2 => simp only [hrec] at h; cases h; exact ih _ hrec
        | ok t => simp only [hrec] at h; cases h

/-- The bulk-buy snapshot loop reads only the product table and the given
items. -/
theorem bulkBuySnapshot_ignores_orders_and_branding (s : Store) (os : List Order)
    (msel : ℤ) :
    ∀ items : List CartItem,
      bulkBuySnapshot
        { s with orders := os,
                 branding := { s.branding with maxSelectionsPerUser := msel } } items =
        bulkBuySnapshot s items := by
  intro items
  have hgp : ∀ pid, getProduct
      { s with orders := os,
               branding := { s.branding with maxSelectionsPerUser := msel } } pid =
      getProduct s pid := fun _ => rfl
  induction items with
  | nil => rfl
  | cons it rest ih => simp only [bulkBuySnapshot, hgp, ih]

/-- **C7.**  With a non-empty cart, the points path rejects with the
selection-limit error exactly when `maxSelectionsPerUser ≠ -1` and the count
of historical orders plus incoming cart items exceeds it (so `-1` never
rejects); the co-pay path does the same once the gateway verification
passes; and the bulk-buy submission performs no selection-limit check at
all — its outcome is unchanged by the employee's historical orders and by
`maxSelectionsPerUser`. -/
theorem selection_limit_enforcement (s : Store) (dm : String) (da : Option String) :
    (s.cart.length ≠ 0 →
      (placeOrders s dm da = .error .selectionLimit ↔
        (s.branding.maxSelectionsPerUser ≠ -1 ∧
          s.branding.maxSelectionsPerUser < (s.orders.length + s.cart.length : ℤ)))) ∧
    (∀ (g : GatewayResult) (txnId : String),
      g.httpOk = true → g.success = true → g.code = "PAYMENT_SUCCESS" →
      s.cart.length ≠ 0 →
      (verifyCopay s g txnId dm da = .error .selectionLimit ↔
        (s.branding.maxSelectionsPerUser ≠ -1 ∧
          s.branding.maxSelectionsPerUser < (s.orders.length + s.cart.length : ℤ)))) ∧
    (∀ (note : Option String) (os : List Order) (msel : ℤ),
      (bulkBuyCheckout
          { s with orders := os,
                   branding := { s.branding with maxSelectionsPerUser := msel } }
          dm da note).map Prod.snd =
        (bulkBuyCheckout s dm da note).map Prod.snd) := by
  refine ⟨?_, ?_, ?_⟩
  · intro hne
    simp only [placeOrders, if_neg hne]
    by_cases hsel : s.branding.maxSelectionsPerUser ≠ -1 ∧
        s.branding.maxSelectionsPerUser < (s.orders.length + s.cart.length : ℤ)
    · rw [if_pos hsel]
      exact ⟨fun _ => hsel, fun _ => rfl⟩
    · rw [if_neg hsel]
      refine ⟨?_, fun h => absurd h hsel⟩
      intro h
      exfalso
      cases hct : computeTotalPoints s s.branding.inrPerPoint s.cart with
      | error e =>
        simp only [hct] at h
        obtain ⟨w, rfl⟩ := computeTotalPoints_error_shape s _ _ _ hct
        cases h
      | ok total =>
        simp only [hct] at h
        by_cases hpts : s.employee.points < total
        · rw [if_pos hpts] at h; cases h
        · rw [if_neg hpts] at h; cases h
  · intro g txnId h1 h2 h3 hne
    have hgate : ¬ (¬ g.httpOk ∨ ¬ g.success ∨ g.code ≠ "PAYMENT_SUCCESS") := by
      simp [h1, h2, h3]
    simp only [verifyCopay, if_neg hgate, if_neg hne]
    by_cases hsel : s.branding.maxSelectionsPerUser ≠ -1 ∧
        s.branding.maxSelectionsPerUser < (s.orders.length + s.cart.length : ℤ)
    · rw [if_pos hsel]
      exact ⟨fun _ => hsel, fun _ => rfl⟩
    · rw [if_neg hsel]
      refine ⟨?_, fun h => absurd h hsel⟩
      intro h
      exfalso
      cases hct : computeTotalPoints s s.branding.inrPerPoint s.cart with
      | error e =>
        simp only [hct] at h
        obtain ⟨w, rfl⟩ := computeTotalPoints_error_shape s _ _ _ hct
        cases h
      | ok total =>
        simp only [hct] at h
        by_cases hpts : total ≤ s.employee.points
        · rw [if_pos hpts] at h; cases h
        · rw [if_neg hpts] at h
          by_cases hmis : (g.amount / 100 : ℚ) ≠
              ((mathCeil ((total - s.employee.points : ℤ) * s.branding.inrPerPoint) : ℤ) : ℚ)
          · rw [if_pos hmis] at h; cases h
          · rw [if_neg hmis] at h; cases h
  · intro note os msel
    simp only [bulkBuyCheckout, bulkBuySnapshot_ignores_orders_and_branding]
    by_cases hlen : s.bulkBuyCart.length = 0
    · simp [hlen]
    · simp only [if_neg hlen]
      cases hsnap : bulkBuySnapshot s s.bulkBuyCart with
      | error e => simp [hsnap]
      | ok pr =>
        obtain ⟨total, itemsSnap⟩ := pr
        simp only [hsnap]
        by_cases hlen2 : itemsSnap.length = 0
        · simp [hlen2]
        · simp [hlen2, Except.map]

/-- Witness for C7: two historical orders plus one cart item against
`maxSelectionsPerUser = 2` triggers the selection-limit rejection on both
checkout paths, and the bulk-buy outcome at that store is independent of the
orders and the limit. -/
theorem selection_limit_witness :
    placeOrders witSelectionStore "office" none = .error .selectionLimit ∧
    verifyCopay witSelectionStore okGate "TXN" "office" none = .error .selectionLimit ∧
    (bulkBuyCheckout
        { witSelectionStore with
            orders := [],
            branding := { witSelectionStore.branding with maxSelectionsPerUser := 0 } }
        "office" none none).map Prod.snd =
      (bulkBuyCheckout witSelectionStore "office" none none).map Prod.snd := by
  refine ⟨?_, ?_, ?_⟩
  · exact ((selection_limit_enforcement witSelectionStore "office" none).1
      (by decide)).mpr (by decide)
  · exact ((selection_limit_enforcement witSelectionStore "office" none).2.1
      okGate "TXN" rfl rfl rfl (by decide)).mpr (by decide)
  · exact (selection_limit_enforcement witSelectionStore "office" none).2.2 none [] 0

/-! ## Bulk-buy submission: theorems -/

/-- The bulk-buy snapshot's running total is the sum of the frozen
`lineTotal`s. -/
theorem bulkBuySnapshot_total (s : Store) :
    ∀ {items : List CartItem} {t : ℚ} {snaps : List SnapItem},
      bulkBuySnapshot s items = .ok (t, snaps) →
        t = (snaps.map SnapItem.lineTotal).sum := by
  intro items
  induction items with
  | nil =>
    intro t snaps h
    simp only [bulkBuySnapshot] at h
    cases h
    simp
  | cons it rest ih =>
    intro t snaps h
    simp only [bulkBuySnapshot] at h
    cases hgp : getProduct s it.productId with
    | none => simp only [hgp] at h; exact ih h
    | some p =>
      simp only [hgp] at h
      by_cases hbb : ¬ p.bulkBuy
      · rw [if_pos hbb] at h; exact ih h
      · rw [if_neg hbb] at h
        by_cases hstock : p.stock < it.quantity
        · rw [if_pos hstock] at h; cases h
        · rw [if_neg hstock] at h
          cases hrec : bulkBuySnapshot s rest with
          | error e => simp only [hrec] at h; cases h
          | ok pr =>
            obtain ⟨t', snaps'⟩ := pr
            simp only [hrec] at h
            cases h
            simp [ih hrec]

/-- **C8.**  A bulk-buy submission — cart checkout or direct request — leaves
the employee's points and every product's stock untouched: it only appends a
`BulkBuyRequest` in `pending_approval` status carrying the frozen line
snapshot whose `lineTotal`s sum (two-decimal rounded) is the stored
`totalAmount`, and the cart variant clears the bulk-buy cart. -/
theorem bulkbuy_frame_effect (s : Store) (dm : String) (da note : Option String) :
    (∀ s' req, bulkBuyCheckout s dm da note = .ok (s', req) →
      s'.products = s.products ∧ s'.employee = s.employee ∧
      req.status = "pending_approval" ∧ req.employeeId = s.employee.id ∧
      req.totalAmount = toFixed2 ((req.items.map SnapItem.lineTotal).sum) ∧
      s'.bulkBuyCart = [] ∧ s'.bulkBuyRequests = s.bulkBuyRequests ++ [req] ∧
      s'.orders = s.orders ∧ s'.cart = s.cart) ∧
    (∀ pid qty col sz s' req,
      bulkBuyDirectRequest s pid qty col sz dm da note = .ok (s', req) →
      s'.products = s.products ∧ s'.employee = s.employee ∧
      s'.bulkBuyCart = s.bulkBuyCart ∧ req.status = "pending_approval" ∧
      s'.bulkBuyRequests = s.bulkBuyRequests ++ [req] ∧
      s'.orders = s.orders ∧ s'.cart = s.cart) := by
  constructor
  · intro s' req h
    simp only [bulkBuyCheckout] at h
    by_cases hlen : s.bulkBuyCart.length = 0
    · rw [if_pos hlen] at h; cases h
    · rw [if_neg hlen] at h
      cases hsnap : bulkBuySnapshot s s.bulkBuyCart with
      | error e => simp only [hsnap] at h; cases h
      | ok pr =>
        obtain ⟨total, itemsSnap⟩ := pr
        simp only [hsnap] at h
        by_cases hlen2 : itemsSnap.length = 0
        · rw [if_pos hlen2] at h; cases h
        · rw [if_neg hlen2] at h
          cases h
          refine ⟨rfl, rfl, rfl, rfl, ?_, rfl, rfl, rfl, rfl⟩
          simp [mkBulkBuyRequest, bulkBuySnapshot_total s hsnap]
  · intro pid qty col sz s' req h
    simp only [bulkBuyDirectRequest] at h
    split at h
    · cases h
    · split at h
      · cases h
      · split at h
        · cases h
        · cases hgp : getProduct s pid with
          | none => simp only [hgp] at h; cases h
          | some p =>
            simp only [hgp] at h
            split at h
            · cases h
            · split at h
              · cases h
              · split at h
                · cases h
                · split at h
                  · cases h
                  · cases h
                    exact ⟨rfl, rfl, rfl, rfl, rfl, rfl, rfl⟩

/-- `Number((x).toFixed(2))` is the identity on integer-valued amounts. -/
theorem toFixed2_intCast (n : ℤ) : toFixed2 (n : ℚ) = (n : ℚ) := by
  have h : ((n : ℚ) * 100) = ((n * 100 : ℤ) : ℚ) := by push_cast; ring
  rw [toFixed2, h, round_intCast]
  push_cast
  ring

/-- Witness for C8: a concrete bulk-buy checkout (one product, quantity 2,
unit price 40) commits a `pending_approval` request and clears the bulk-buy
cart while leaving products and the employee untouched. -/
theorem bulkbuy_frame_witness :
    ∃ s' req, bulkBuyCheckout witBulkStore "office" none none = .ok (s', req) ∧
      s'.products = witBulkStore.products ∧ s'.employee = witBulkStore.employee ∧
      req.status = "pending_approval" ∧ s'.bulkBuyCart = [] ∧
      s'.bulkBuyRequests = witBulkStore.bulkBuyRequests ++ [req] := by
  have h80 : toFixed2 ((40 : ℚ) * 2) = 80 := by
    have h : ((40 : ℚ) * 2) = ((80 : ℤ) : ℚ) := by norm_num
    rw [h, toFixed2_intCast]; norm_num
  have h80b : toFixed2 (80 : ℚ) = 80 := by
    have h : ((80 : ℚ)) = ((80 : ℤ) : ℚ) := by norm_num
    rw [h, toFixed2_intCast]
  have heval : bulkBuyCheckout witBulkStore "office" none none =
      .ok ({ witBulkStore with
               bulkBuyRequests :=
                 [{ employeeId := "e1", status := "pending_approval",
                    deliveryMethod := "office", deliveryAddress := none,
                    requesterNote := none,
                    items := [{ productId := "pB", name := "Bulky", sku := "SB",
                                selectedColor := none, selectedSize := none,
                                quantity := 2, unitPrice := 40, lineTotal := 80 }],
                    totalAmount := 80 }],
               bulkBuyCart := [] },
           { employeeId := "e1", status := "pending_approval",
             deliveryMethod := "office", deliveryAddress := none,
             requesterNote := none,
             items := [{ productId := "pB", name := "Bulky", sku := "SB",
                         selectedColor := none, selectedSize := none,
                         quantity := 2, unitPrice := 40, lineTotal := 80 }],
             totalAmount := 80 }) := by
    simp [bulkBuyCheckout, bulkBuySnapshot, witBulkStore, getProduct,
      getUnitPriceForQty, mkBulkBuyRequest, h80, h80b]
  have h := (bulkbuy_frame_effect witBulkStore "office" none none).1 _ _ heval
  exact ⟨_, _, heval, h.1, h.2.1, h.2.2.1, h.2.2.2.2.2.1, h.2.2.2.2.2.2.1⟩

/-! ## Commit-loop lemmas -/

/-- `qtyFor` over a cons. -/
theorem qtyFor_cons (it : CartItem) (rest : List CartItem) (pid : String) :
    qtyFor (it :: rest) pid =
      (if it.productId = pid then it.quantity else 0) + qtyFor rest pid := by
  by_cases h : it.productId = pid
  · simp [qtyFor, List.filter_cons, h]
  · simp [qtyFor, List.filter_cons, h]

/-- A stock update rewrites exactly the looked-up product's stock. -/
theorem getProduct_update (s : Store) (pid : String) (v : ℤ) (x : String) :
    getProduct (updateProductStock s pid v) x =
      (getProduct s x).map (fun p => if x = pid then { p with stock := v } else p) := by
  unfold getProduct updateProductStock
  rw [List.find?_map]
  have hpred : ((fun p : Product => p.id == x) ∘
      (fun p => if p.id == pid then { p with stock := v } else p)) =
      (fun p : Product => p.id == x) := by
    funext q
    by_cases hq : q.id = pid <;> simp [hq]
  rw [hpred]
  cases hf : s.products.find? (fun p => p.id == x) with
  | none => rfl
  | some q =>
    have hid : q.id = x := by
      have := (List.find?_eq_some.mp hf).1
      simpa using this
    simp only [Option.map_some']
    by_cases hx : x = pid
    · rw [if_pos hx, if_pos (by simp [hid, hx])]
    · rw [if_neg hx, if_neg (by simp [hid, hx])]

/-- Stamping an order ignores the product's stock. -/
theorem mkOrder_stock_irrel (e : String) (inr : ℚ) (dm : String) (da : Option String)
    (extra : OrderMeta → OrderMeta) (p : Product) (v : ℤ) (it : CartItem) :
    mkOrder e inr dm da extra { p with stock := v } it = mkOrder e inr dm da extra p it := rfl

/-- Full characterization of the commit loop: products change only by the
per-product stock decrement, the employee and cart are untouched, the created
orders are appended to the order table, and one order is created per cart
item whose product is still present — in cart order, stamped from the
original store (price data is stock-independent). -/
theorem commitOrders_spec (inr : ℚ) (dm : String) (da : Option String)
    (extra : OrderMeta → OrderMeta) :
    ∀ (items : List CartItem) (s : Store),
      (∀ pid, getProduct (commitOrders inr dm da extra s items).1 pid =
        (getProduct s pid).map
          (fun p => { p with stock := p.stock - qtyFor items pid })) ∧
      (commitOrders inr dm da extra s items).1.employee = s.employee ∧
      (commitOrders inr dm da extra s items).1.cart = s.cart ∧
      (commitOrders inr dm da extra s items).1.branding = s.branding ∧
      (commitOrders inr dm da extra s items).1.orders =
        s.orders ++ (commitOrders inr dm da extra s items).2 ∧
      (commitOrders inr dm da extra s items).2 =
        (items.filter (fun it => (getProduct s it.productId).isSome)).map
          (stampedOrderOf s inr dm da extra) := by
  intro items
  induction items with
  | nil =>
    intro s
    refine ⟨?_, rfl, rfl, rfl, by simp [commitOrders], by simp [commitOrders]⟩
    intro pid
    cases hgp : getProduct s pid with
    | none => simp [commitOrders, hgp]
    | some p => simp [commitOrders, hgp, qtyFor]
  | cons it rest ih =>
    intro s
    cases hgp : getProduct s it.productId with
    | none =>
      have hstep : commitOrders inr dm da extra s (it :: rest) =
          commitOrders inr dm da extra s rest := by
        simp only [commitOrders, hgp]
      obtain ⟨ihs, ihe, ihc, ihb, iho, ihcr⟩ := ih s
      rw [hstep]
      refine ⟨?_, ihe, ihc, ihb, iho, ?_⟩
      · intro pid
        by_cases hpe : it.productId = pid
        · subst hpe
          rw [ihs it.productId, hgp]
          rfl
        · rw [ihs pid, qtyFor_cons, if_neg hpe, zero_add]
      · rw [ihcr]
        simp [List.filter_cons, hgp]
    | some p =>
      have hstep : commitOrders inr dm da extra s (it :: rest) =
          (((commitOrders inr dm da extra
              { updateProductStock s it.productId (p.stock - it.quantity) with
                orders := (updateProductStock s it.productId (p.stock - it.quantity)).orders
                  ++ [mkOrder s.employee.id inr dm da extra p it] } rest).1),
            mkOrder s.employee.id inr dm da extra p it ::
              (commitOrders inr dm da extra
                { updateProductStock s it.productId (p.stock - it.quantity) with
                  orders := (updateProductStock s it.productId (p.stock - it.quantity)).orders
                    ++ [mkOrder s.employee.id inr dm da extra p it] } rest).2) := by
        simp only [commitOrders, hgp]
      set s2 : Store :=
        { updateProductStock s it.productId (p.stock - it.quantity) with
          orders := (updateProductStock s it.productId (p.stock - it.quantity)).orders
            ++ [mkOrder s.employee.id inr dm da extra p it] } with hs2
      have hgp2 : ∀ x, getProduct s2 x =
          (getProduct s x).map
            (fun q => if x = it.productId then { q with stock := p.stock - it.quantity }
              else q) := by
        intro x
        have : getProduct s2 x =
            getProduct (updateProductStock s it.productId (p.stock - it.quantity)) x := rfl
        rw [this, getProduct_update]
      obtain ⟨ihs, ihe, ihc, ihb, iho, ihcr⟩ := ih s2
      rw [hstep]
      have hemp2 : s2.employee = s.employee := rfl
      have hcart2 : s2.cart = s.cart := rfl
      have hbrand2 : s2.branding = s.branding := rfl
      have hord2 : s2.orders = s.orders ++ [mkOrder s.employee.id inr dm da extra p it] := rfl
      refine ⟨?_, by rw [ihe, hemp2], by rw [ihc, hcart2], by rw [ihb, hbrand2], ?_, ?_⟩
      · intro pid
        rw [ihs pid, hgp2 pid]
        by_cases hpe : it.productId = pid
        · subst hpe
          rw [hgp]
          have harith : p.stock - it.quantity - qtyFor rest it.productId =
              p.stock - qtyFor (it :: rest) it.productId := by
            rw [qtyFor_cons, if_pos rfl]; ring
          simp [harith]
        · have hpe2 : ¬ (pid = it.productId) := fun h => hpe h.symm
          cases hx : getProduct s pid with
          | none => rfl
          | some q =>
            simp only [Option.map_some', if_neg hpe2]
            rw [qtyFor_cons, if_neg hpe, zero_add]
      · rw [iho, hord2]
        simp
      · have hpredeq : (fun j : CartItem => (getProduct s2 j.productId).isSome) =
            (fun j : CartItem => (getProduct s j.productId).isSome) := by
          funext j
          rw [hgp2]
          cases getProduct s j.productId <;> simp
        have hordeq : stampedOrderOf s2 inr dm da extra =
            stampedOrderOf s inr dm da extra := by
          funext j
          unfold stampedOrderOf
          rw [hgp2, hemp2]
          cases getProduct s j.productId with
          | none => rfl
          | some q =>
            simp only [Option.map_some', Option.getD_some]
            by_cases hj : j.productId = it.productId
            · rw [if_pos hj, mkOrder_stock_irrel]
            · rw [if_neg hj]
        rw [ihcr, hpredeq, hordeq]
        have hkeep : (getProduct s it.productId).isSome = true := by rw [hgp]; rfl
        simp only [List.filter_cons, hkeep, if_pos]
        simp only [List.map_cons]
        congr 1
        unfold stampedOrderOf
        rw [hgp]
        rfl

/-- A successful validation/points loop saw every item's product. -/
theorem computeTotalPoints_ok_products (s : Store) (inr : ℚ) :
    ∀ {items : List CartItem} {total : ℤ},
      computeTotalPoints s inr items = .ok total →
        ∀ it ∈ items, (getProduct s it.productId).isSome := by
  intro items
  induction items with
  | nil => intro total _ it hit; cases hit
  | cons j rest ih =>
    intro total h it hit
    simp only [computeTotalPoints] at h
    cases hgp : getProduct s j.productId with
    | none => simp only [hgp] at h; cases h
    | some p =>
      simp only [hgp] at h
      by_cases hstock : p.stock < j.quantity
      · rw [if_pos hstock] at h; cases h
      · rw [if_neg hstock] at h
        cases hrec : computeTotalPoints s inr rest with
        | error e => simp only [hrec] at h; cases h
        | ok t =>
          rcases List.mem_cons.mp hit with rfl | hit
          · rw [hgp]; rfl
          · exact ih hrec it hit

/-- The total of a successful validation/points loop is the per-unit-ceiling
sum of the claim. -/
theorem computeTotalPoints_ok_sum (s : Store) (inr : ℚ) :
    ∀ {items : List CartItem} {total : ℤ},
      computeTotalPoints s inr items = .ok total →
        total = (items.map (fun it =>
          mathCeil (getUnitPriceForQty ((getProduct s it.productId).getD defaultProduct)
            (it.quantity : ℚ) / inr) * it.quantity)).sum := by
  intro items
  induction items with
  | nil =>
    intro total h
    simp only [computeTotalPoints] at h
    cases h
    simp
  | cons j rest ih =>
    intro total h
    simp only [computeTotalPoints] at h
    cases hgp : getProduct s j.productId with
    | none => simp only [hgp] at h; cases h
    | some p =>
      simp only [hgp] at h
      by_cases hstock : p.stock < j.quantity
      · rw [if_pos hstock] at h; cases h
      · rw [if_neg hstock] at h
        cases hrec : computeTotalPoints s inr rest with
        | error e => simp only [hrec] at h; cases h
        | ok t =>
          simp only [hrec] at h
          cases h
          rw [List.map_cons, List.sum_cons, hgp, ← ih hrec]
          rfl

/-- Every order the commit loop creates is stamped with
`usedPoints = Math.ceil(unitPrice / inrPerPoint) * quantity` against its own
stamped `unitPrice`, for any metadata decoration that does not touch those
two fields. -/
theorem commitOrders_usedPoints (inr : ℚ) (dm : String) (da : Option String)
    (extra : OrderMeta → OrderMeta)
    (hx : ∀ m, (extra m).usedPoints = m.usedPoints ∧ (extra m).unitPrice = m.unitPrice)
    (s : Store) (items : List CartItem) :
    ∀ o ∈ (commitOrders inr dm da extra s items).2, ∃ m, o.metadata = some m ∧
      m.usedPoints = mathCeil (m.unitPrice / inr) * o.quantity := by
  intro o ho
  rw [(commitOrders_spec inr dm da extra items s).2.2.2.2.2] at ho
  obtain ⟨it, _, rfl⟩ := List.mem_map.mp ho
  refine ⟨_, rfl, ?_⟩
  rw [(hx _).1, (hx _).2]
  rfl

/-- Destructuring a successful points-only checkout. -/
theorem placeOrders_ok {s : Store} {dm : String} {da : Option String}
    {s' : Store} {created : List Order}
    (h : placeOrders s dm da = .ok (s', created)) :
    ∃ total, s.cart.length ≠ 0 ∧
      computeTotalPoints s s.branding.inrPerPoint s.cart = .ok total ∧
      ¬ s.employee.points < total ∧
      (s', created) = finalizePointsCheckout s s.branding.inrPerPoint dm da total := by
  simp only [placeOrders] at h
  by_cases hlen : s.cart.length = 0
  · rw [if_pos hlen] at h; cases h
  · rw [if_neg hlen] at h
    by_cases hsel : s.branding.maxSelectionsPerUser ≠ -1 ∧
        s.branding.maxSelectionsPerUser < (s.orders.length + s.cart.length : ℤ)
    · rw [if_pos hsel] at h; cases h
    · rw [if_neg hsel] at h
      cases hct : computeTotalPoints s s.branding.inrPerPoint s.cart with
      | error e => simp only [hct] at h; cases h
      | ok total =>
        simp only [hct] at h
        by_cases hpts : s.employee.points < total
        · rw [if_pos hpts] at h; cases h
        · rw [if_neg hpts] at h
          cases h
          exact ⟨total, hlen, rfl, hpts, rfl⟩

/-- Destructuring a successful co-pay verification checkout. -/
theorem verifyCopay_ok {s : Store} {g : GatewayResult} {txnId dm : String}
    {da : Option String} {s' : Store} {created : List Order}
    (h : verifyCopay s g txnId dm da = .ok (s', created)) :
    ∃ total, g.httpOk = true ∧ g.success = true ∧ g.code = "PAYMENT_SUCCESS" ∧
      s.cart.length ≠ 0 ∧
      computeTotalPoints s s.branding.inrPerPoint s.cart = .ok total ∧
      s.employee.points < total ∧
      g.amount / 100 =
        ((mathCeil ((total - s.employee.points : ℤ) * s.branding.inrPerPoint) : ℤ) : ℚ) ∧
      (s', created) = finalizeCopayCheckout s s.branding.inrPerPoint dm da
        (mathCeil ((total - s.employee.points : ℤ) * s.branding.inrPerPoint))
        g.transactionId txnId := by
  simp only [verifyCopay] at h
  by_cases hgate : ¬ g.httpOk ∨ ¬ g.success ∨ g.code ≠ "PAYMENT_SUCCESS"
  · rw [if_pos hgate] at h; cases h
  · rw [if_neg hgate] at h
    push_neg at hgate
    by_cases hlen : s.cart.length = 0
    · rw [if_pos hlen] at h; cases h
    · rw [if_neg hlen] at h
      by_cases hsel : s.branding.maxSelectionsPerUser ≠ -1 ∧
          s.branding.maxSelectionsPerUser < (s.orders.length + s.cart.length : ℤ)
      · rw [if_pos hsel] at h; cases h
      · rw [if_neg hsel] at h
        cases hct : computeTotalPoints s s.branding.inrPerPoint s.cart with
        | error e => simp only [hct] at h; cases h
        | ok total =>
          simp only [hct] at h
          by_cases hpts : total ≤ s.employee.points
          · rw [if_pos hpts] at h; cases h
          · rw [if_neg hpts] at h
            by_cases hmis : (g.amount / 100 : ℚ) ≠
                ((mathCeil ((total - s.employee.points : ℤ) * s.branding.inrPerPoint) : ℤ) : ℚ)
            · rw [if_pos hmis] at h; cases h
            · rw [if_neg hmis] at h
              cases h
              push_neg at hmis
              exact ⟨total, by simp [hgate.1], by simp [hgate.2.1], hgate.2.2, hlen, rfl,
                lt_of_not_le hpts, hmis, rfl⟩

/-- **C1.**  When a points-only checkout passes all its preconditions (so the
handler reaches the commit phase and succeeds), the commit decrements each
referenced product's stock by the total quantity the cart orders of it,
creates exactly one order per cart item stamped with the resolver's
`unitPrice` and `usedPoints = Math.ceil(unitPrice / inrPerPoint) * quantity`,
reduces the employee's balance by exactly `totalPointsRequired`, and clears
the cart; the co-pay commit does the same except that it sets the balance
to `0`. -/
theorem checkout_commit_effects (s : Store) (dm : String) (da : Option String)
    (hinr : 0 < s.branding.inrPerPoint) :
    (∀ s' created, placeOrders s dm da = .ok (s', created) →
      ∃ total, computeTotalPoints s s.branding.inrPerPoint s.cart = .ok total ∧
        created = s.cart.map (stampedOrderOf s s.branding.inrPerPoint dm da id) ∧
        created.length = s.cart.length ∧
        (∀ pid, getProduct s' pid = (getProduct s pid).map
          (fun p => { p with stock := p.stock - qtyFor s.cart pid })) ∧
        (∀ o ∈ created, ∃ m, o.metadata = some m ∧
          m.usedPoints = mathCeil (m.unitPrice / s.branding.inrPerPoint) * o.quantity) ∧
        s'.employee.points = s.employee.points - total ∧ s'.cart = []) ∧
    (∀ g txnId s' created, verifyCopay s g txnId dm da = .ok (s', created) →
        created.length = s.cart.length ∧
        (∀ pid, getProduct s' pid = (getProduct s pid).map
          (fun p => { p with stock := p.stock - qtyFor s.cart pid })) ∧
        (∀ o ∈ created, ∃ m, o.metadata = some m ∧
          m.usedPoints = mathCeil (m.unitPrice / s.branding.inrPerPoint) * o.quantity) ∧
        s'.employee.points = 0 ∧ s'.cart = []) := by
  constructor
  · intro s' created h
    obtain ⟨total, hlen, hct, hpts, hfin⟩ := placeOrders_ok h
    simp only [finalizePointsCheckout, Prod.mk.injEq] at hfin
    obtain ⟨hs', hcr⟩ := hfin
    have hspec := commitOrders_spec s.branding.inrPerPoint dm da id s.cart s
    have hall : ∀ it ∈ s.cart, (getProduct s it.productId).isSome :=
      computeTotalPoints_ok_products s _ hct
    have hfilter : s.cart.filter (fun it => (getProduct s it.productId).isSome) = s.cart :=
      List.filter_eq_self.mpr hall
    have hcreated : created =
        s.cart.map (stampedOrderOf s s.branding.inrPerPoint dm da id) := by
      rw [hcr, hspec.2.2.2.2.2, hfilter]
    refine ⟨total, hct, hcreated, ?_, ?_, ?_, ?_, by rw [hs']⟩
    · rw [hcreated]; simp
    · intro pid
      have : getProduct s' pid =
          getProduct (commitOrders s.branding.inrPerPoint dm da id s s.cart).1 pid := by
        rw [hs']; rfl
      rw [this, hspec.1 pid]
    · intro o ho
      rw [hcr] at ho
      exact commitOrders_usedPoints s.branding.inrPerPoint dm da id
        (fun m => ⟨rfl, rfl⟩) s s.cart o ho
    · rw [hs']
  · intro g txnId s' created h
    obtain ⟨total, _, _, _, hlen, hct, _, _, hfin⟩ := verifyCopay_ok h
    simp only [finalizeCopayCheckout, Prod.mk.injEq] at hfin
    obtain ⟨hs', hcr⟩ := hfin
    have hspec := commitOrders_spec s.branding.inrPerPoint dm da
      (fun m => { m with
        copayInr := some (mathCeil ((total - s.employee.points : ℤ) * s.branding.inrPerPoint)),
        paymentId := g.transactionId, phonepeOrderId := some txnId }) s.cart s
    have hall : ∀ it ∈ s.cart, (getProduct s it.productId).isSome :=
      computeTotalPoints_ok_products s _ hct
    have hfilter : s.cart.filter (fun it => (getProduct s it.productId).isSome) = s.cart :=
      List.filter_eq_self.mpr hall
    have hcreated : created.length = s.cart.length := by
      rw [hcr, hspec.2.2.2.2.2, hfilter]
      simp
    refine ⟨hcreated, ?_, ?_, ?_, by rw [hs']⟩
    · intro pid
      have : getProduct s' pid =
          getProduct (commitOrders s.branding.inrPerPoint dm da
            (fun m => { m with
              copayInr := some (mathCeil ((total - s.employee.points : ℤ) *
                s.branding.inrPerPoint)),
              paymentId := g.transactionId, phonepeOrderId := some txnId }) s s.cart).1 pid := by
        rw [hs']; rfl
      rw [this, hspec.1 pid]
    · intro o ho
      rw [hcr] at ho
      exact commitOrders_usedPoints s.branding.inrPerPoint dm da
        (fun m => { m with
          copayInr := some (mathCeil ((total - s.employee.points : ℤ) *
            s.branding.inrPerPoint)),
          paymentId := g.transactionId, phonepeOrderId := some txnId })
        (fun m => ⟨rfl, rfl⟩) s s.cart o ho
    · rw [hs']

/-- `Math.ceil` is the identity on integer-valued rationals. -/
theorem mathCeil_intCast (n : ℤ) : mathCeil (n : ℚ) = n := by
  simp [mathCeil]

/-- Witness for C1: the end-to-end points checkout of `witPointsStore`
(price 50, quantity 2, rate 1, 100 points) succeeds, creates one order,
zeroes the balance (100 − 100) and clears the cart. -/
theorem checkout_commit_witness :
    0 < witPointsStore.branding.inrPerPoint ∧
    ∃ s' created total,
      placeOrders witPointsStore "office" none = .ok (s', created) ∧
      computeTotalPoints witPointsStore witPointsStore.branding.inrPerPoint
        witPointsStore.cart = .ok total ∧
      created.length = witPointsStore.cart.length ∧
      s'.employee.points = witPointsStore.employee.points - total ∧
      s'.cart = [] := by
  have h50 : mathCeil (50 : ℚ) = 50 := by
    rw [show ((50 : ℚ)) = ((50 : ℤ) : ℚ) by norm_num, mathCeil_intCast]
  have heval : placeOrders witPointsStore "office" none =
      .ok ({ witPointsStore with
               products := [{ id := "pP", name := "Points Prod", sku := "SP", price := 50,
                              stock := 3, priceSlabs := [], isActive := true,
                              bulkBuy := false, colors := [], sizes := [] }],
               orders := [{ employeeId := "e1", productId := "pP", selectedColor := none,
                            selectedSize := none, quantity := 2, campaignId := none,
                            metadata := some { usedPoints := 100, unitPrice := 50,
                                               copayInr := none, paymentId := none,
                                               phonepeOrderId := none,
                                               deliveryMethod := "office",
                                               deliveryAddress := none } }],
               employee := { id := "e1", points := 0 },
               cart := [] },
           [{ employeeId := "e1", productId := "pP", selectedColor := none,
              selectedSize := none, quantity := 2, campaignId := none,
              metadata := some { usedPoints := 100, unitPrice := 50,
                                 copayInr := none, paymentId := none,
                                 phonepeOrderId := none,
                                 deliveryMethod := "office",
                                 deliveryAddress := none } }]) := by
    simp [placeOrders, computeTotalPoints, finalizePointsCheckout, commitOrders, mkOrder,
      getProduct, updateProductStock, getUnitPriceForQty, witPointsStore, emptyToNone,
      div_one, h50]
  refine ⟨by norm_num [witPointsStore], ?_⟩
  obtain ⟨total, hct, hcr, hlen, hstock, hused, hpts, hcart⟩ :=
    (checkout_commit_effects witPointsStore "office" none
      (by norm_num [witPointsStore])).1 _ _ heval
  exact ⟨_, _, total, heval, hct, hlen, hpts, hcart⟩

/-- **C2.**  Points are charged per unit, not per line: a successful
validation/points loop returns exactly
`Σ ceil(unitPrice(product, qty) / inrPerPoint) * qty`, every committed order
is stamped with `usedPoints = ceil(unitPrice / inrPerPoint) * quantity`
against its own stamped unit price, and with `inrPerPoint = 2`, unit price
`99`, quantity `3` the charge is `ceil(99/2)*3 = 150` — both as raw
arithmetic and through the resolver on the price-99 product. -/
theorem per_unit_points_rounding (s : Store) (inr : ℚ) :
    (∀ items total, computeTotalPoints s inr items = .ok total →
      total = (items.map (fun it =>
        mathCeil (getUnitPriceForQty ((getProduct s it.productId).getD defaultProduct)
          (it.quantity : ℚ) / inr) * it.quantity)).sum) ∧
    (∀ (dm : String) (da : Option String) (extra : OrderMeta → OrderMeta),
      (∀ m, (extra m).usedPoints = m.usedPoints ∧ (extra m).unitPrice = m.unitPrice) →
      ∀ items, ∀ o ∈ (commitOrders inr dm da extra s items).2,
        ∃ m, o.metadata = some m ∧
          m.usedPoints = mathCeil (m.unitPrice / inr) * o.quantity) ∧
    (mathCeil ((99 : ℚ) / 2) * 3 = 150 ∧
      mathCeil (getUnitPriceForQty exPointsProduct 3 / 2) * 3 = 150) := by
  have h99 : mathCeil ((99 : ℚ) / 2) = 50 := by
    rw [mathCeil, Int.ceil_eq_iff] <;> norm_num
  refine ⟨fun items total h => computeTotalPoints_ok_sum s inr h,
    fun dm da extra hx items => commitOrders_usedPoints inr dm da extra hx s items,
    by rw [h99]; norm_num, ?_⟩
  have hbase : getUnitPriceForQty exPointsProduct 3 = 99 := rfl
  rw [hbase, h99]
  norm_num

/-- Witness for C2: the formula instantiated on the concrete store
(`total = 100` for price 50, quantity 2, rate 1) and the spec's
`ceil(99/2)*3 = 150` instance. -/
theorem per_unit_points_witness :
    (100 : ℤ) = (witPointsStore.cart.map (fun it =>
      mathCeil (getUnitPriceForQty
        ((getProduct witPointsStore it.productId).getD defaultProduct)
        (it.quantity : ℚ) / witPointsStore.branding.inrPerPoint) * it.quantity)).sum ∧
    mathCeil ((99 : ℚ) / 2) * 3 = 150 := by
  have h50 : mathCeil (50 : ℚ) = 50 := by
    rw [show ((50 : ℚ)) = ((50 : ℤ) : ℚ) by norm_num, mathCeil_intCast]
  have hct : computeTotalPoints witPointsStore witPointsStore.branding.inrPerPoint
      witPointsStore.cart = .ok 100 := by
    simp [computeTotalPoints, getProduct, getUnitPriceForQty, witPointsStore, div_one, h50]
  exact ⟨(per_unit_points_rounding witPointsStore
      witPointsStore.branding.inrPerPoint).1 witPointsStore.cart 100 hct,
    (per_unit_points_rounding witPointsStore witPointsStore.branding.inrPerPoint).2.2.1⟩

/-- `qtyFor` over an append. -/
theorem qtyFor_append (a b : List CartItem) (pid : String) :
    qtyFor (a ++ b) pid = qtyFor a pid + qtyFor b pid := by
  simp [qtyFor, List.filter_append]

/-- **C10.**  In the points-only commit phase, a cart item whose product
lookup returns nothing at commit time is silently skipped: no order is
created for it and no stock is touched for it, the other items commit
normally — yet the employee's balance is still reduced by the full
`totalPointsRequired` computed by the earlier validation pass over *all*
cart items (including the skipped one, against the validation-time snapshot
`s₀`), the cart is still cleared, and the phase returns successfully (it has
no failure outcome). -/
theorem points_commit_skips_missing_product
    (s₀ s : Store) (dm : String) (da : Option String) (total : ℤ)
    (pre post : List CartItem) (it : CartItem)
    (hcart : s.cart = pre ++ it :: post)
    (hmiss : getProduct s it.productId = none)
    (hcart₀ : s₀.cart = pre ++ it :: post)
    (htotal : computeTotalPoints s₀ s₀.branding.inrPerPoint s₀.cart = .ok total) :
    (finalizePointsCheckout s s₀.branding.inrPerPoint dm da total).2 =
      ((pre ++ post).filter (fun j => (getProduct s j.productId).isSome)).map
        (stampedOrderOf s s₀.branding.inrPerPoint dm da id) ∧
    (¬ ∃ o ∈ (finalizePointsCheckout s s₀.branding.inrPerPoint dm da total).2,
        o.productId = it.productId) ∧
    (∀ pid, getProduct (finalizePointsCheckout s s₀.branding.inrPerPoint dm da total).1 pid =
      (getProduct s pid).map
        (fun p => { p with stock := p.stock - qtyFor (pre ++ post) pid })) ∧
    (finalizePointsCheckout s s₀.branding.inrPerPoint dm da total).1.employee.points =
      s.employee.points - total ∧
    (finalizePointsCheckout s s₀.branding.inrPerPoint dm da total).1.cart = [] := by
  have hspec := commitOrders_spec s₀.branding.inrPerPoint dm da id s.cart s
  have hpredit : ((getProduct s it.productId).isSome : Bool) = false := by
    rw [hmiss]; rfl
  have hcreated : (finalizePointsCheckout s s₀.branding.inrPerPoint dm da total).2 =
      ((pre ++ post).filter (fun j => (getProduct s j.productId).isSome)).map
        (stampedOrderOf s s₀.branding.inrPerPoint dm da id) := by
    have h2 : (finalizePointsCheckout s s₀.branding.inrPerPoint dm da total).2 =
        (commitOrders s₀.branding.inrPerPoint dm da id s s.cart).2 := rfl
    rw [h2, hspec.2.2.2.2.2, hcart]
    simp [List.filter_append, List.filter_cons, hpredit]
  refine ⟨hcreated, ?_, ?_, rfl, rfl⟩
  · intro ⟨o, ho, hop⟩
    rw [hcreated] at ho
    obtain ⟨j, hj, rfl⟩ := List.mem_map.mp ho
    have hjpred := List.of_mem_filter hj
    have hopid : (stampedOrderOf s s₀.branding.inrPerPoint dm da id j).productId =
        j.productId := rfl
    rw [hopid] at hop
    rw [hop, hmiss] at hjpred
    cases hjpred
  · intro pid
    have h1 : getProduct (finalizePointsCheckout s s₀.branding.inrPerPoint dm da total).1 pid =
        getProduct (commitOrders s₀.branding.inrPerPoint dm da id s s.cart).1 pid := rfl
    rw [h1, hspec.1 pid]
    by_cases hpe : it.productId = pid
    · rw [← hpe, hmiss]; rfl
    · rw [hcart, qtyFor_append, qtyFor_append, qtyFor_cons, if_neg hpe, zero_add]

/-- Witness for C10: the product vanishes between validation (over
`witPointsStore`, total 100) and commit; the commit phase creates no order,
still deducts the full 100 points, and clears the cart. -/
theorem points_commit_skip_witness :
    (finalizePointsCheckout { witPointsStore with products := [] }
        witPointsStore.branding.inrPerPoint "office" none 100).2 = [] ∧
    (finalizePointsCheckout { witPointsStore with products := [] }
        witPointsStore.branding.inrPerPoint "office" none 100).1.employee.points =
      ({ witPointsStore with products := [] } : Store).employee.points - 100 ∧
    (finalizePointsCheckout { witPointsStore with products := [] }
        witPointsStore.branding.inrPerPoint "office" none 100).1.cart = [] := by
  have h50 : mathCeil (50 : ℚ) = 50 := by
    rw [show ((50 : ℚ)) = ((50 : ℤ) : ℚ) by norm_num, mathCeil_intCast]
  have hct : computeTotalPoints witPointsStore witPointsStore.branding.inrPerPoint
      witPointsStore.cart = .ok 100 := by
    simp [computeTotalPoints, getProduct, getUnitPriceForQty, witPointsStore, div_one, h50]
  obtain ⟨hcr, hno, hstock, hpts, hcart⟩ :=
    points_commit_skips_missing_product witPointsStore
      { witPointsStore with products := [] } "office" none 100 [] []
      ⟨"i1", "e1", "pP", 2, none, none, none⟩ rfl rfl rfl hct
  exact ⟨by rw [hcr]; rfl, hpts, hcart⟩

/-! ## Co-pay guards and exact-amount gate -/

/-- **C4.**  The co-pay path fails with the back-to-normal-checkout guard
whenever `employee.points >= totalPointsRequired`; otherwise it computes
`deficitPoints = totalPointsRequired - employee.points` and
`copayAmount = Math.ceil(deficitPoints * inrPerPoint)`; verification commits
only when the gateway response succeeds with `code = "PAYMENT_SUCCESS"` and
the paid amount (`amount / 100`) equals `copayAmount` exactly — any other
verified paid amount is rejected with the amount-mismatch error, an error
return that in this embedding performs no stock, order or points write. -/
theorem copay_guards_and_exact_amount (s : Store) :
    (∀ total, s.cart.length ≠ 0 →
      ¬ (s.branding.maxSelectionsPerUser ≠ -1 ∧
          s.branding.maxSelectionsPerUser < (s.orders.length + s.cart.length : ℤ)) →
      computeTotalPoints s s.branding.inrPerPoint s.cart = .ok total →
      (total ≤ s.employee.points →
        createCopayOrder s = .error .sufficientPoints ∧
        ∀ g txnId dm da, verifyCopay s g txnId dm da = .error .sufficientPoints ∨
          verifyCopay s g txnId dm da = .error .paymentNotCompleted) ∧
      (s.employee.points < total →
        createCopayOrder s =
          .ok (total - s.employee.points,
               mathCeil ((total - s.employee.points : ℤ) * s.branding.inrPerPoint)) ∧
        ∀ (g : GatewayResult) txnId dm da,
          ((¬ g.httpOk ∨ ¬ g.success ∨ g.code ≠ "PAYMENT_SUCCESS") →
            verifyCopay s g txnId dm da = .error .paymentNotCompleted) ∧
          (g.httpOk = true → g.success = true → g.code = "PAYMENT_SUCCESS" →
            g.amount / 100 ≠
              ((mathCeil ((total - s.employee.points : ℤ) *
                s.branding.inrPerPoint) : ℤ) : ℚ) →
            verifyCopay s g txnId dm da =
              .error (.amountMismatch
                (mathCeil ((total - s.employee.points : ℤ) * s.branding.inrPerPoint))
                (g.amount / 100))))) ∧
    (∀ g txnId dm da s' created, verifyCopay s g txnId dm da = .ok (s', created) →
      g.httpOk = true ∧ g.success = true ∧ g.code = "PAYMENT_SUCCESS" ∧
      ∃ total, computeTotalPoints s s.branding.inrPerPoint s.cart = .ok total ∧
        s.employee.points < total ∧
        g.amount / 100 =
          ((mathCeil ((total - s.employee.points : ℤ) *
            s.branding.inrPerPoint) : ℤ) : ℚ)) := by
  constructor
  · intro total hlen hsel hct
    constructor
    · intro hpts
      constructor
      · simp only [createCopayOrder, if_neg hlen, if_neg hsel, hct, if_pos hpts]
      · intro g txnId dm da
        by_cases hgate : ¬ g.httpOk ∨ ¬ g.success ∨ g.code ≠ "PAYMENT_SUCCESS"
        · right
          simp only [verifyCopay, if_pos hgate]
        · left
          simp only [verifyCopay, if_neg hgate, if_neg hlen, if_neg hsel, hct, if_pos hpts]
    · intro hpts
      have hpts2 : ¬ total ≤ s.employee.points := not_le.mpr hpts
      constructor
      · simp only [createCopayOrder, if_neg hlen, if_neg hsel, hct, if_neg hpts2]
      · intro g txnId dm da
        constructor
        · intro hgate
          simp only [verifyCopay, if_pos hgate]
        · intro h1 h2 h3 hmis
          have hgate : ¬ (¬ g.httpOk ∨ ¬ g.success ∨ g.code ≠ "PAYMENT_SUCCESS") := by
            simp [h1, h2, h3]
          simp only [verifyCopay, if_neg hgate, if_neg hlen, if_neg hsel, hct,
            if_neg hpts2, if_pos hmis]
  · intro g txnId dm da s' created h
    obtain ⟨total, h1, h2, h3, _, hct, hpts, hamt, _⟩ := verifyCopay_ok h
    exact ⟨h1, h2, h3, total, hct, hpts, hamt⟩

/-- Witness for C4 on the spec's numbers: `total = 500`, `points = 300`, so
the deficit is 200 and `copayAmount = 200`; a verified payment of ₹199
(19900 paise) is rejected with the amount mismatch. -/
theorem copay_witness :
    createCopayOrder witCopayStore = .ok (200, 200) ∧
    verifyCopay witCopayStore badAmountGate "TXN" "office" none =
      .error (.amountMismatch 200 199) := by
  have h500 : mathCeil (500 : ℚ) = 500 := by
    rw [show ((500 : ℚ)) = ((500 : ℤ) : ℚ) by norm_num, mathCeil_intCast]
  have hct : computeTotalPoints witCopayStore witCopayStore.branding.inrPerPoint
      witCopayStore.cart = .ok 500 := by
    simp [computeTotalPoints, getProduct, getUnitPriceForQty, witCopayStore, div_one, h500]
  have h200 : mathCeil ((500 - witCopayStore.employee.points : ℤ) *
      witCopayStore.branding.inrPerPoint) = 200 := by
    norm_num [witCopayStore]
    rw [show ((200 : ℚ)) = ((200 : ℤ) : ℚ) by norm_num, mathCeil_intCast]
  have hmain := (copay_guards_and_exact_amount witCopayStore).1 500 (by decide)
    (by decide) hct
  have hrich := hmain.2 (by decide)
  constructor
  · rw [hrich.1, h200]
    norm_num [witCopayStore]
  · have hne : badAmountGate.amount / 100 ≠
        ((mathCeil ((500 - witCopayStore.employee.points : ℤ) *
          witCopayStore.branding.inrPerPoint) : ℤ) : ℚ) := by
      rw [h200]
      norm_num [badAmountGate]
    have hmis := (hrich.2 badAmountGate "TXN" "office" none).2 rfl rfl rfl hne
    rw [hmis, h200]
    norm_num [badAmountGate]
